import Mathlib

/-! # terraform-provider-algolia: the index resource

A shallow embedding of `algolia/resource_index.go`: the settings codec
(`buildSettingsFromResourceData`, `readResourceFromSettings`, `castStringList`,
`settingsAsMap`) and the four lifecycle operations of the index resource; and
of the validators of `algolia/validation.go`.

Conventions of the embedding.

* A Go `interface{}` is a `Value`.  A Go `[]string` is an `Option (List String)`
  where `none` is the nil slice, so that a nil slice and an empty non-nil slice
  stay distinct, as they are for `reflect.DeepEqual` and for the JSON encoder.
* `algoliasearch.Map` (`map[string]interface{}`) is an association list with
  distinct keys.
* `schema.ResourceData` is a record with one typed field per key of the schema
  of `resourceIndex()` plus the resource id.  `d.Get("k").(T)` is the field
  `d.k`; `d.Set("k", v)` is `d.Set "k" v`, which looks the key up in the schema.
* The remote client is a record of three response functions; every operation
  returns the calls it issued together with its result.
-/

namespace Algolia

/-! ## Values -/

/-- A dynamically typed Go value (`interface{}`), restricted to the shapes the
provider meets: the untyped nil, `bool`, `int`, `float64` (a finite float is a
rational number), `string`, `[]string` (with `none` for the nil slice) and
`[]interface{}`. -/
inductive Value where
  | nil : Value
  | bool (b : Bool) : Value
  | int (n : Int) : Value
  | float64 (x : Rat) : Value
  | str (s : String) : Value
  | strs (xs : Option (List String)) : Value
  | slice (xs : List Value) : Value

/-- The least value of the Go type `int`, which is 64 bits wide on the
platforms the provider is built for. -/
def minInt : Int := -9223372036854775808

/-- The greatest value of the Go type `int`. -/
def maxInt : Int := 9223372036854775807

/-- The Go conversion `int(v)` of a `float64`: the fraction is discarded
(truncation towards zero).  When the truncated value does not fit `int` the
result is implementation-dependent in Go; it is the least `int` here, as the
conversion instruction of amd64 gives it.  On every platform the result is an
`int`, so it lies between `minInt` and `maxInt`. -/
def floatToInt (x : Rat) : Int :=
  let t := Int.tdiv x.num (x.den : Int)
  if minInt ≤ t ∧ t ≤ maxInt then t else minInt

/-! ## The settings object of the client library -/

/-- The fields of `algoliasearch.Settings` that `resource_index.go` reads or
writes.  `Distinct`, `IgnorePlurals` and `RemoveStopWords` are `interface{}`
in the client library. -/
structure Settings where
  AdvancedSyntax : Bool
  AllowCompressionOfIntegerArray : Bool
  AllowTyposOnNumericTokens : Bool
  AttributeForDistinct : String
  AttributesForFaceting : Option (List String)
  AttributesToHighlight : Option (List String)
  AttributesToIndex : Option (List String)
  AttributesToRetrieve : Option (List String)
  AttributesToSnippet : Option (List String)
  CustomRanking : Option (List String)
  DisableTypoToleranceOnAttributes : Option (List String)
  DisableTypoToleranceOnWords : Option (List String)
  Distinct : Value
  HighlightPostTag : String
  HighlightPreTag : String
  HitsPerPage : Int
  IgnorePlurals : Value
  MaxFacetHits : Int
  MaxValuesPerFacet : Int
  MinProximity : Int
  MinWordSizefor1Typo : Int
  MinWordSizefor2Typos : Int
  NumericAttributesForFiltering : Option (List String)
  NumericAttributesToIndex : Option (List String)
  OptionalWords : Option (List String)
  PaginationLimitedTo : Int
  QueryType : String
  Ranking : Option (List String)
  RemoveStopWords : Value
  RemoveWordsIfNoResults : String
  ReplaceSynonymsInHighlight : Bool
  Replicas : Option (List String)
  ResponseFields : Option (List String)
  RestrictHighlightAndSnippetArrays : Bool
  SearchableAttributes : Option (List String)
  SeparatorsToIndex : String
  SnippetEllipsisText : String
  SortFacetValuesBy : String
  TypoTolerance : String
  UnretrievableAttributes : Option (List String)

/-! ## The resource data of the host runtime -/

/-- The state of one `schema.ResourceData` of the index resource: the resource
id (`d.Id()`) and one field per key of the schema of `resourceIndex()`, typed
as the schema types it (`TypeString`, `TypeBool`, `TypeInt`, `TypeList` of
`TypeString`).  A list read with `d.Get` is never nil. -/
structure ResourceData where
  id : String
  name : String
  searchable_attributes : List String
  attributes_for_faceting : List String
  unretrievable_attributes : List String
  attribute_for_distinct : String
  attributes_to_retrieve : List String
  custom_ranking : List String
  ranking : List String
  replicas : List String
  max_values_per_facet : Int
  sort_facet_values_by : String
  attributes_to_highlight : List String
  attributes_to_snippet : List String
  highlight_pre_tag : String
  highlight_post_tag : String
  optional_words : List String
  snippet_ellipsis_text : String
  restrict_highlight_and_snippet_arrays : Bool
  advanced_syntax : Bool
  hits_per_page : Int
  pagination_limited_to : Int
  min_proximity : Int
  min_word_size_for_1_typo : Int
  min_word_size_for_2_typos : Int
  max_facet_hits : Int
  typo_tolerance : String
  allow_typos_on_numeric_tokens : Bool
  replace_synonyms_in_highlight : Bool
  allow_compression_of_integer_array : Bool
  query_type : String
  disable_typo_tolerance_on_attributes : List String
  response_fields : List String
  disable_typo_tolerance_on_words : List String
  separators_to_index : String
  remove_words_if_no_results : String

namespace ResourceData

/-- Writing a string field with a string, the only shape of value the source
passes for such a field.  The conversions the host runtime applies to values
of other shapes are outside the embedding; the record is left as it is there,
and no theorem reaches that branch. -/
def setStr (d : ResourceData) (v : Value) (upd : String → ResourceData) : ResourceData :=
  match v with
  | .str s => upd s
  | _ => d

/-- Writing a boolean field with a boolean, the only shape of value the source
passes for such a field; other shapes are outside the embedding, as for
`setStr`. -/
def setBool (d : ResourceData) (v : Value) (upd : Bool → ResourceData) : ResourceData :=
  match v with
  | .bool b => upd b
  | _ => d

/-- Writing an integer field with an `int`, the only shape of value the source
passes for such a field; other shapes, which the host runtime may convert, are
outside the embedding, as for `setStr`. -/
def setInt (d : ResourceData) (v : Value) (upd : Int → ResourceData) : ResourceData :=
  match v with
  | .int n => upd n
  | _ => d

/-- Writing a list field from a `[]string`, the only shape of value the source
passes for such a field: the nil slice is stored as the list of length zero.
Other shapes are outside the embedding, as for `setStr`. -/
def setList (d : ResourceData) (v : Value) (upd : List String → ResourceData) : ResourceData :=
  match v with
  | .strs xs => upd (xs.getD [])
  | _ => d

/-- The call `d.Set(key, v)` with its returned error discarded, as every call
of `readResourceFromSettings` discards it.  The key is looked up in the schema
of `resourceIndex()`; a key that the schema does not declare is an invalid
address: the call fails and writes nothing. -/
def Set (d : ResourceData) (key : String) (v : Value) : ResourceData :=
  if key = "name" then d.setStr v (fun x => { d with name := x })
  else if key = "searchable_attributes" then
    d.setList v (fun x => { d with searchable_attributes := x })
  else if key = "attributes_for_faceting" then
    d.setList v (fun x => { d with attributes_for_faceting := x })
  else if key = "unretrievable_attributes" then
    d.setList v (fun x => { d with unretrievable_attributes := x })
  else if key = "attribute_for_distinct" then
    d.setStr v (fun x => { d with attribute_for_distinct := x })
  else if key = "attributes_to_retrieve" then
    d.setList v (fun x => { d with attributes_to_retrieve := x })
  else if key = "custom_ranking" then
    d.setList v (fun x => { d with custom_ranking := x })
  else if key = "ranking" then
    d.setList v (fun x => { d with ranking := x })
  else if key = "replicas" then
    d.setList v (fun x => { d with replicas := x })
  else if key = "max_values_per_facet" then
    d.setInt v (fun x => { d with max_values_per_facet := x })
  else if key = "sort_facet_values_by" then
    d.setStr v (fun x => { d with sort_facet_values_by := x })
  else if key = "attributes_to_highlight" then
    d.setList v (fun x => { d with attributes_to_highlight := x })
  else if key = "attributes_to_snippet" then
    d.setList v (fun x => { d with attributes_to_snippet := x })
  else if key = "highlight_pre_tag" then
    d.setStr v (fun x => { d with highlight_pre_tag := x })
  else if key = "highlight_post_tag" then
    d.setStr v (fun x => { d with highlight_post_tag := x })
  else if key = "optional_words" then
    d.setList v (fun x => { d with optional_words := x })
  else if key = "snippet_ellipsis_text" then
    d.setStr v (fun x => { d with snippet_ellipsis_text := x })
  else if key = "restrict_highlight_and_snippet_arrays" then
    d.setBool v (fun x => { d with restrict_highlight_and_snippet_arrays := x })
  else if key = "advanced_syntax" then
    d.setBool v (fun x => { d with advanced_syntax := x })
  else if key = "hits_per_page" then
    d.setInt v (fun x => { d with hits_per_page := x })
  else if key = "pagination_limited_to" then
    d.setInt v (fun x => { d with pagination_limited_to := x })
  else if key = "min_proximity" then
    d.setInt v (fun x => { d with min_proximity := x })
  else if key = "min_word_size_for_1_typo" then
    d.setInt v (fun x => { d with min_word_size_for_1_typo := x })
  else if key = "min_word_size_for_2_typos" then
    d.setInt v (fun x => { d with min_word_size_for_2_typos := x })
  else if key = "max_facet_hits" then
    d.setInt v (fun x => { d with max_facet_hits := x })
  else if key = "typo_tolerance" then
    d.setStr v (fun x => { d with typo_tolerance := x })
  else if key = "allow_typos_on_numeric_tokens" then
    d.setBool v (fun x => { d with allow_typos_on_numeric_tokens := x })
  else if key = "replace_synonyms_in_highlight" then
    d.setBool v (fun x => { d with replace_synonyms_in_highlight := x })
  else if key = "allow_compression_of_integer_array" then
    d.setBool v (fun x => { d with allow_compression_of_integer_array := x })
  else if key = "query_type" then
    d.setStr v (fun x => { d with query_type := x })
  else if key = "disable_typo_tolerance_on_attributes" then
    d.setList v (fun x => { d with disable_typo_tolerance_on_attributes := x })
  else if key = "response_fields" then
    d.setList v (fun x => { d with response_fields := x })
  else if key = "disable_typo_tolerance_on_words" then
    d.setList v (fun x => { d with disable_typo_tolerance_on_words := x })
  else if key = "separators_to_index" then
    d.setStr v (fun x => { d with separators_to_index := x })
  else if key = "remove_words_if_no_results" then
    d.setStr v (fun x => { d with remove_words_if_no_results := x })
  else d

/-- The call `d.SetId(v)`. -/
def SetId (d : ResourceData) (v : String) : ResourceData :=
  { d with id := v }

end ResourceData

/-! ## The settings codec -/

/-- The package variable `rankingDefault`. -/
def rankingDefault : List String :=
  ["typo", "geo", "words", "filters", "proximity", "attribute", "exact", "custom"]

/-- The call `reflect.DeepEqual(a, b)` on two `[]string`: both nil, or both
non-nil with the same elements in the same order. -/
def deepEqual (a b : Option (List String)) : Bool :=
  decide (a = b)

/-- The loop body of `castStringList`: the strings different from `""`, in
order; any other element is skipped. -/
def castStringListLoop : List Value → List String
  | [] => []
  | Value.str val :: rest =>
      if val ≠ "" then val :: castStringListLoop rest else castStringListLoop rest
  | _ :: rest => castStringListLoop rest

/-- The function `castStringList`: the result is allocated with `make`, so it
is never the nil slice. -/
def castStringList (configured : List Value) : Option (List String) :=
  some (castStringListLoop configured)

/-- The value `d.Get(key).([]interface{})` of a list field: its strings, each
boxed as an `interface{}`. -/
def boxed (xs : List String) : List Value :=
  xs.map Value.str

/-- The function `buildSettingsFromResourceData`.  The fields of the settings
object that the function does not name keep their Go zero values: the nil
slice and the nil interface. -/
def buildSettingsFromResourceData (d : ResourceData) : Settings :=
  let ranking := castStringList (boxed d.ranking)
  let ranking := if deepEqual ranking (some rankingDefault) then some [] else ranking
  { AdvancedSyntax := d.advanced_syntax
    AllowCompressionOfIntegerArray := d.allow_compression_of_integer_array
    AllowTyposOnNumericTokens := d.allow_typos_on_numeric_tokens
    AttributeForDistinct := d.attribute_for_distinct
    AttributesForFaceting := castStringList (boxed d.attributes_for_faceting)
    AttributesToHighlight := castStringList (boxed d.attributes_to_highlight)
    AttributesToRetrieve := castStringList (boxed d.attributes_to_retrieve)
    AttributesToSnippet := castStringList (boxed d.attributes_to_snippet)
    CustomRanking := castStringList (boxed d.custom_ranking)
    DisableTypoToleranceOnAttributes :=
      castStringList (boxed d.disable_typo_tolerance_on_attributes)
    DisableTypoToleranceOnWords := castStringList (boxed d.disable_typo_tolerance_on_words)
    HighlightPostTag := d.highlight_post_tag
    HighlightPreTag := d.highlight_pre_tag
    HitsPerPage := d.hits_per_page
    MaxFacetHits := d.max_facet_hits
    MaxValuesPerFacet := d.max_values_per_facet
    MinProximity := d.min_proximity
    MinWordSizefor1Typo := d.min_word_size_for_1_typo
    MinWordSizefor2Typos := d.min_word_size_for_2_typos
    PaginationLimitedTo := d.pagination_limited_to
    OptionalWords := castStringList (boxed d.optional_words)
    QueryType := d.query_type
    Ranking := ranking
    RemoveWordsIfNoResults := d.remove_words_if_no_results
    ReplaceSynonymsInHighlight := d.replace_synonyms_in_highlight
    Replicas := castStringList (boxed d.replicas)
    ResponseFields := castStringList (boxed d.response_fields)
    RestrictHighlightAndSnippetArrays := d.restrict_highlight_and_snippet_arrays
    SearchableAttributes := castStringList (boxed d.searchable_attributes)
    SeparatorsToIndex := d.separators_to_index
    SnippetEllipsisText := d.snippet_ellipsis_text
    SortFacetValuesBy := d.sort_facet_values_by
    TypoTolerance := d.typo_tolerance
    UnretrievableAttributes := castStringList (boxed d.unretrievable_attributes)
    AttributesToIndex := none
    NumericAttributesToIndex := none
    NumericAttributesForFiltering := none
    Distinct := Value.nil
    IgnorePlurals := Value.nil
    RemoveStopWords := Value.nil }

/-- The function `readResourceFromSettings`: thirty-four calls of `d.Set`, in
the order and with the keys of the source. -/
def readResourceFromSettings (d : ResourceData) (s : Settings) : ResourceData :=
  let ranking := if deepEqual s.Ranking (some rankingDefault) then some [] else s.Ranking
  let d := d.Set "advanced_syntax" (.bool s.AdvancedSyntax)
  let d := d.Set "allow_compression_of_integer_array" (.bool s.AllowCompressionOfIntegerArray)
  let d := d.Set "allow_typos_on_numeric_tokens" (.bool s.AllowTyposOnNumericTokens)
  let d := d.Set "attribute_for_distinct" (.str s.AttributeForDistinct)
  let d := d.Set "attributes_for_faceting" (.strs s.AttributesForFaceting)
  let d := d.Set "attributes_to_highlight" (.strs s.AttributesToHighlight)
  let d := d.Set "attributes_to_retrieve" (.strs s.AttributesToRetrieve)
  let d := d.Set "attributes_to_snippet" (.strs s.AttributesToSnippet)
  let d := d.Set "custom_ranking" (.strs s.CustomRanking)
  let d := d.Set "disable_typo_tolerance_on_attributes" (.strs s.DisableTypoToleranceOnAttributes)
  let d := d.Set "disable_typo_tolerance_on_words" (.strs s.DisableTypoToleranceOnWords)
  let d := d.Set "highlight_post_tag" (.str s.HighlightPostTag)
  let d := d.Set "highlight_pre_tag" (.str s.HighlightPreTag)
  let d := d.Set "hits_per_page" (.int s.HitsPerPage)
  let d := d.Set "max_facet_hits" (.int s.MaxFacetHits)
  let d := d.Set "max_values_per_facet" (.int s.MaxValuesPerFacet)
  let d := d.Set "min_proximity" (.int s.MinProximity)
  let d := d.Set "min_word_size_for_1_typo" (.int s.MinWordSizefor1Typo)
  let d := d.Set "min_word_size_for_2_typos" (.int s.MinWordSizefor2Typos)
  let d := d.Set "optional_words" (.strs s.OptionalWords)
  let d := d.Set "pagination_limited_to" (.int s.PaginationLimitedTo)
  let d := d.Set "query_type" (.str s.QueryType)
  let d := d.Set "ranking" (.strs ranking)
  let d := d.Set "remove_words_if_no_results" (.str s.RemoveWordsIfNoResults)
  let d := d.Set "replace_synonyms_in_highlight" (.bool s.ReplaceSynonymsInHighlight)
  let d := d.Set "replicas" (.strs s.Replicas)
  let d := d.Set "response_fields" (.strs s.ResponseFields)
  let d := d.Set "restrict_highlight_and_snippet_arrays" (.bool s.RestrictHighlightAndSnippetArrays)
  let d := d.Set "searchable_attributes" (.strs s.SearchableAttributes)
  let d := d.Set "separators_to_index" (.str s.SeparatorsToIndex)
  let d := d.Set "snippet_ellipsis_text" (.str s.SnippetEllipsisText)
  let d := d.Set "sort_facets_values_by" (.str s.SortFacetValuesBy)
  let d := d.Set "typo_tolerance" (.str s.TypoTolerance)
  let d := d.Set "unretrievable_attributes" (.strs s.UnretrievableAttributes)
  d

/-! ## The payload map -/

/-- The type `algoliasearch.Map`, a `map[string]interface{}`: an association
list in which no key occurs twice. -/
def Map : Type := List (String × Value)

namespace Map

/-- The lookup `m[key]`, with `none` for a key the map does not hold. -/
def find (m : Map) (key : String) : Option Value :=
  List.lookup key m

/-- The assignment `m[key] = v`: the entry of the key is replaced, or added. -/
def store (m : Map) (key : String) (v : Value) : Map :=
  (key, v) :: List.filter (fun e => e.1 != key) m

/-- The keys of the map. -/
def keys (m : Map) : List String :=
  List.map Prod.fst m

end Map

/-- The text `reflect.TypeOf(v)` prints under the verb `%v`. -/
def typeName : Value → String
  | .nil => "<nil>"
  | .bool _ => "bool"
  | .int _ => "int"
  | .float64 _ => "float64"
  | .str _ => "string"
  | .strs _ => "[]string"
  | .slice _ => "[]interface \x7b\x7d"

/-- The loop over a `[]interface{}` of `settingsAsMap`, for the field `field`:
the strings are appended to `languages`, and one line is written to the
standard error stream for every other element.  The result is the final
`languages` and the lines written, in order. -/
def languagesLoop (field : String) : List Value → List String → List String × List String
  | [], languages => (languages, [])
  | Value.str lang :: rest, languages => languagesLoop field rest (languages ++ [lang])
  | _ :: rest, languages =>
      let r := languagesLoop field rest languages
      (r.1, ("Settings.ToMap(): `" ++ field ++ "` slice doesn't only contain strings\n") :: r.2)

/-- The type switch of `settingsAsMap` on `IgnorePlurals` and on
`RemoveStopWords`, for the map key `field`: the map after the switch and the
lines written to the standard error stream. -/
def languagesSwitch (field : String) (v : Value) (m : Map) : Map × List String :=
  match v with
  | .bool b => (m.store field (.bool b), [])
  | .slice xs =>
      let r := languagesLoop field xs []
      if r.1.length > 0 then (m.store field (.strs (some r.1)), r.2) else (m, r.2)
  | other =>
      (m, ["Settings.ToMap(): Wrong type for `" ++ field ++ "`: " ++ typeName other ++ "\n"])

/-- The type switch of `settingsAsMap` on `Distinct`; it has no default case. -/
def distinctSwitch (v : Value) (m : Map) : Map :=
  match v with
  | .bool b => m.store "distinct" (.bool b)
  | .float64 x => m.store "distinct" (.int (floatToInt x))
  | _ => m

/-- The map literal that opens `settingsAsMap`. -/
def settingsLiteral (s : Settings) : Map :=
  [ ("allowCompressionOfIntegerArray", .bool s.AllowCompressionOfIntegerArray),
    ("attributeForDistinct", .str s.AttributeForDistinct),
    ("attributesForFaceting", .strs s.AttributesForFaceting),
    ("attributesToIndex", .strs s.AttributesToIndex),
    ("customRanking", .strs s.CustomRanking),
    ("numericAttributesToIndex", .strs s.NumericAttributesToIndex),
    ("numericAttributesForFiltering", .strs s.NumericAttributesForFiltering),
    ("ranking", .strs s.Ranking),
    ("replicas", .strs s.Replicas),
    ("searchableAttributes", .strs s.SearchableAttributes),
    ("separatorsToIndex", .str s.SeparatorsToIndex),
    ("unretrievableAttributes", .strs s.UnretrievableAttributes),
    ("disableTypoToleranceOnAttributes", .strs s.DisableTypoToleranceOnAttributes),
    ("disableTypoToleranceOnWords", .strs s.DisableTypoToleranceOnWords),
    ("advancedSyntax", .bool s.AdvancedSyntax),
    ("allowTyposOnNumericTokens", .bool s.AllowTyposOnNumericTokens),
    ("attributesToHighlight", .strs s.AttributesToHighlight),
    ("attributesToRetrieve", .strs s.AttributesToRetrieve),
    ("attributesToSnippet", .strs s.AttributesToSnippet),
    ("highlightPostTag", .str s.HighlightPostTag),
    ("highlightPreTag", .str s.HighlightPreTag),
    ("hitsPerPage", .int s.HitsPerPage),
    ("maxFacetHits", .int s.MaxFacetHits),
    ("maxValuesPerFacet", .int s.MaxValuesPerFacet),
    ("minProximity", .int s.MinProximity),
    ("minWordSizefor1Typo", .int s.MinWordSizefor1Typo),
    ("minWordSizefor2Typos", .int s.MinWordSizefor2Typos),
    ("optionalWords", .strs s.OptionalWords),
    ("queryType", .str s.QueryType),
    ("replaceSynonymsInHighlight", .bool s.ReplaceSynonymsInHighlight),
    ("snippetEllipsisText", .str s.SnippetEllipsisText),
    ("typoTolerance", .str s.TypoTolerance),
    ("responseFields", .strs s.ResponseFields),
    ("removeWordsIfNoResults", .str s.RemoveWordsIfNoResults) ]

/-- The function `settingsAsMap`, with the lines it writes to the standard
error stream: the map literal, then the switches on `Distinct`, on
`IgnorePlurals` and on `RemoveStopWords`. -/
def settingsAsMapLog (s : Settings) : Map × List String :=
  let m := settingsLiteral s
  let m := distinctSwitch s.Distinct m
  let r1 := languagesSwitch "ignorePlurals" s.IgnorePlurals m
  let r2 := languagesSwitch "removeStopWords" s.RemoveStopWords r1.1
  (r2.1, r1.2 ++ r2.2)

/-- The map `settingsAsMap` returns. -/
def settingsAsMap (s : Settings) : Map :=
  (settingsAsMapLog s).1

/-! ## The remote client and the lifecycle operations -/

/-- The responses of the remote service, as the client library hands them to
the provider.  A Go `error` is the text of its `Error()`, with `none` for the
nil error.  `SetSettings` and `Delete` take the name the index handle was
initialised with (`client.InitIndex(name)`); `GetSettings` returns the decoded
settings together with the error. -/
structure Client where
  SetSettings : String → Map → Option String
  GetSettings : String → Settings × Option String
  Delete : String → Option String

/-- One call issued to the remote service: the index the handle names and,
for a write of the settings, the payload. -/
inductive Call where
  | setSettings (index : String) (payload : Map) : Call
  | getSettings (index : String) : Call
  | delete (index : String) : Call

/-- What a lifecycle operation leaves behind: the resource data after it, the
error it returns (`none` for nil) and the remote calls it issued, in order. -/
structure Outcome where
  data : ResourceData
  err : Option String
  calls : List Call

/-- The error text `resourceIndexRead` compares the remote error with. -/
def notFoundText : String :=
  "\x7b\"message\":\"ObjectID does not exist\",\"status\":404\x7d\n"

/-- The function `resourceIndexCreate`. -/
def resourceIndexCreate (d : ResourceData) (client : Client) : Outcome :=
  let index := d.name
  let settings := buildSettingsFromResourceData d
  let err := client.SetSettings index (settingsAsMap settings)
  match err with
  | some e =>
      { data := d
        err := some ("Error creating index " ++ d.name ++ ": " ++ e)
        calls := [Call.setSettings index (settingsAsMap settings)] }
  | none =>
      { data := d.SetId d.name
        err := none
        calls := [Call.setSettings index (settingsAsMap settings)] }

/-- The function `resourceIndexRead`. -/
def resourceIndexRead (d : ResourceData) (client : Client) : Outcome :=
  let index := d.id
  let r := client.GetSettings index
  let settings := r.1
  let err := r.2
  if err ≠ none ∧ err = some notFoundText then
    { data := d.SetId "", err := none, calls := [Call.getSettings index] }
  else
    { data := readResourceFromSettings d settings, err := none, calls := [Call.getSettings index] }

/-- The function `resourceIndexUpdate`. -/
def resourceIndexUpdate (d : ResourceData) (client : Client) : Outcome :=
  let index := d.id
  let settings := buildSettingsFromResourceData d
  let err := client.SetSettings index (settingsAsMap settings)
  match err with
  | some e =>
      { data := d
        err := some ("Error updating index " ++ d.id ++ ": " ++ e)
        calls := [Call.setSettings index (settingsAsMap settings)] }
  | none =>
      { data := d, err := none, calls := [Call.setSettings index (settingsAsMap settings)] }

/-- The function `resourceIndexDelete`. -/
def resourceIndexDelete (d : ResourceData) (client : Client) : Outcome :=
  let index := d.name
  let err := client.Delete index
  { data := d, err := err, calls := [Call.delete index] }

/-! ## Sample inputs -/

/-- A configuration that leaves every optional field to its schema default. -/
def sampleConfig : ResourceData :=
  { id := ""
    name := "products"
    searchable_attributes := []
    attributes_for_faceting := []
    unretrievable_attributes := []
    attribute_for_distinct := ""
    attributes_to_retrieve := []
    custom_ranking := []
    ranking := []
    replicas := []
    max_values_per_facet := 100
    sort_facet_values_by := "count"
    attributes_to_highlight := []
    attributes_to_snippet := []
    highlight_pre_tag := "<em>"
    highlight_post_tag := "</em>"
    optional_words := []
    snippet_ellipsis_text := "…"
    restrict_highlight_and_snippet_arrays := false
    advanced_syntax := false
    hits_per_page := 20
    pagination_limited_to := 1000
    min_proximity := 1
    min_word_size_for_1_typo := 4
    min_word_size_for_2_typos := 8
    max_facet_hits := 10
    typo_tolerance := "true"
    allow_typos_on_numeric_tokens := true
    replace_synonyms_in_highlight := true
    allow_compression_of_integer_array := false
    query_type := "prefixLast"
    disable_typo_tolerance_on_attributes := []
    response_fields := []
    disable_typo_tolerance_on_words := []
    separators_to_index := ""
    remove_words_if_no_results := "none" }

/-- The zero value of `algoliasearch.Settings`. -/
def zeroSettings : Settings :=
  { AdvancedSyntax := false
    AllowCompressionOfIntegerArray := false
    AllowTyposOnNumericTokens := false
    AttributeForDistinct := ""
    AttributesForFaceting := none
    AttributesToHighlight := none
    AttributesToIndex := none
    AttributesToRetrieve := none
    AttributesToSnippet := none
    CustomRanking := none
    DisableTypoToleranceOnAttributes := none
    DisableTypoToleranceOnWords := none
    Distinct := Value.nil
    HighlightPostTag := ""
    HighlightPreTag := ""
    HitsPerPage := 0
    IgnorePlurals := Value.nil
    MaxFacetHits := 0
    MaxValuesPerFacet := 0
    MinProximity := 0
    MinWordSizefor1Typo := 0
    MinWordSizefor2Typos := 0
    NumericAttributesForFiltering := none
    NumericAttributesToIndex := none
    OptionalWords := none
    PaginationLimitedTo := 0
    QueryType := ""
    Ranking := none
    RemoveStopWords := Value.nil
    RemoveWordsIfNoResults := ""
    ReplaceSynonymsInHighlight := false
    Replicas := none
    ResponseFields := none
    RestrictHighlightAndSnippetArrays := false
    SearchableAttributes := none
    SeparatorsToIndex := ""
    SnippetEllipsisText := ""
    SortFacetValuesBy := ""
    TypoTolerance := ""
    UnretrievableAttributes := none }

/-- A configuration that overrides three scalar settings of `sampleConfig`. -/
def tunedConfig : ResourceData :=
  { sampleConfig with
    pagination_limited_to := 500
    sort_facet_values_by := "alpha"
    restrict_highlight_and_snippet_arrays := true }

/-- A configuration whose `replicas` list holds the empty string. -/
def blankReplicaConfig : ResourceData :=
  { sampleConfig with replicas := ["products_by_price", ""] }

/-- A configuration with a custom ranking and two replicas. -/
def listedConfig : ResourceData :=
  { sampleConfig with
    ranking := ["custom", "typo", "geo"]
    replicas := ["products_by_price", "products_by_date"]
    searchable_attributes := ["title", "brand"] }

/-- A configuration that spells out the default ranking. -/
def defaultRankingConfig : ResourceData :=
  { sampleConfig with ranking := rankingDefault }

/-- A resource that was created as `products_v1` and whose configured name was
later changed to `products_v2`: the name is not marked `ForceNew`, so the
change goes through `resourceIndexUpdate`, which keeps the id. -/
def renamedResource : ResourceData :=
  { sampleConfig with id := "products_v1", name := "products_v2" }

/-- A resource that exists remotely under the id `products`. -/
def presentResource : ResourceData :=
  { sampleConfig with id := "products" }

/-- A remote service that answers every call with the error `e`; its
`GetSettings` returns the zero settings beside the error. -/
def failingClient (e : String) : Client :=
  { SetSettings := fun _ _ => some e
    GetSettings := fun _ => (zeroSettings, some e)
    Delete := fun _ => some e }

/-- A remote service that accepts every call and reports the settings `s`. -/
def acceptingClient (s : Settings) : Client :=
  { SetSettings := fun _ _ => none
    GetSettings := fun _ => (s, none)
    Delete := fun _ => none }

/-- A list of strings none of which is the empty string. -/
def nonEmptyStrings (xs : List String) : Prop :=
  ∀ x ∈ xs, x ≠ ""

/-- The thirteen list fields of a configuration record. -/
def listFields (d : ResourceData) : List (List String) :=
  [ d.searchable_attributes, d.attributes_for_faceting, d.unretrievable_attributes,
    d.attributes_to_retrieve, d.custom_ranking, d.ranking, d.replicas,
    d.attributes_to_highlight, d.attributes_to_snippet, d.optional_words,
    d.disable_typo_tolerance_on_attributes, d.response_fields,
    d.disable_typo_tolerance_on_words ]

/-- No list field of the configuration record holds the empty string. -/
def cleanLists (d : ResourceData) : Prop :=
  ∀ xs ∈ listFields d, nonEmptyStrings xs

/-- The error body as the specification quotes it, without a line end. -/
def notFoundBody : String :=
  "\x7b\"message\":\"ObjectID does not exist\",\"status\":404\x7d"

/-- Remote settings whose ranking is the default ordering. -/
def defaultRankingSettings : Settings :=
  { zeroSettings with Ranking := some rankingDefault }

/-- Remote settings that sort facet values alphabetically. -/
def alphaSettings : Settings :=
  { zeroSettings with SortFacetValuesBy := "alpha" }

/-! ## Diagnostics and sequences, as the specification names them -/

/-- The line `settingsAsMap` writes for an element of the sequence of `field`
that is not a string. -/
def sliceDiagnostic (field : String) : String :=
  "Settings.ToMap(): `" ++ field ++ "` slice doesn't only contain strings\n"

/-- The line `settingsAsMap` writes when the value `v` of `field` has the
wrong type. -/
def wrongTypeDiagnostic (field : String) (v : Value) : String :=
  "Settings.ToMap(): Wrong type for `" ++ field ++ "`: " ++ typeName v ++ "\n"

/-- The subsequence of the string elements of a sequence of values, in their
original order. -/
def stringElements : List Value → List String
  | [] => []
  | Value.str t :: rest => t :: stringElements rest
  | _ :: rest => stringElements rest

/-- The number of elements of a sequence of values that are not strings. -/
def nonStringCount : List Value → Nat
  | [] => 0
  | Value.str _ :: rest => nonStringCount rest
  | _ :: rest => nonStringCount rest + 1

/-- A value that is neither a boolean nor a sequence: none of the shapes
`settingsAsMap` recognises for `IgnorePlurals` and `RemoveStopWords`. -/
def malformedLanguages : Value → Prop
  | .bool _ => False
  | .slice _ => False
  | _ => True

/-- A value that is neither a boolean nor a `float64` number: none of the
shapes `settingsAsMap` recognises for `Distinct`. -/
def malformedDistinct : Value → Prop
  | .bool _ => False
  | .float64 _ => False
  | _ => True

/-- What the claim on sequence fields asks of one field: the built value is
not the nil slice, the payload holds it under the key of the field, and it is
the empty sequence when the field is unset in the configuration. -/
def emittedSequence (configured : List String) (built : Option (List String))
    (payload : Option Value) : Prop :=
  built ≠ none ∧ payload = some (Value.strs built) ∧ (configured = [] → built = some [])

/-- The entry `settingsAsMap` leaves under the key of a language field whose
value is `v`: the boolean, the string elements of a sequence that has some, or
no entry. -/
def languagesEntry : Value → Option Value
  | .bool b => some (.bool b)
  | .slice xs =>
      if (stringElements xs).length > 0 then some (.strs (some (stringElements xs))) else none
  | _ => none

/-- The lines `settingsAsMap` writes for a language field whose value is `v`. -/
def languagesLog (field : String) : Value → List String
  | .bool _ => []
  | .slice xs => List.replicate (nonStringCount xs) (sliceDiagnostic field)
  | .nil => [wrongTypeDiagnostic field .nil]
  | .int n => [wrongTypeDiagnostic field (.int n)]
  | .float64 x => [wrongTypeDiagnostic field (.float64 x)]
  | .str t => [wrongTypeDiagnostic field (.str t)]
  | .strs xs => [wrongTypeDiagnostic field (.strs xs)]

/-- The entry `settingsAsMap` leaves under the key `distinct` when the value
of `Distinct` is `v`. -/
def distinctEntry : Value → Option Value
  | .bool b => some (.bool b)
  | .float64 x => some (.int (floatToInt x))
  | _ => none

/-- Whether a line of the standard error stream is a diagnostic of `field`:
the line `settingsAsMap` writes for an element of its sequence that is not a
string, or a wrong-type line of the field, whatever type the line prints. -/
def isDiagnosticOf (field line : String) : Bool :=
  line == sliceDiagnostic field ||
    List.isPrefixOf ("Settings.ToMap(): Wrong type for `" ++ field ++ "`: ").data line.data

/-! ## The validators -/

/-- The validator `IntBetween(min, max)` applied to the value `i` of the field
`k`: the warnings and the texts of the errors it returns. -/
def IntBetween (min max : Int) (i : Value) (k : String) : List String × List String :=
  match i with
  | .int v =>
      if v < min ∨ v > max then
        ([], ["expected " ++ k ++ " to be in the range (" ++ toString min ++ " - " ++
          toString max ++ "), got " ++ toString v])
      else ([], [])
  | _ => ([], ["expected type of " ++ k ++ " to be int"])

/-- The loop of `StringInSet`: whether some member of the set equals `v`. -/
def stringInSetLoop (v : String) : List String → Bool
  | [] => false
  | valid :: rest => if valid = v then true else stringInSetLoop v rest

/-- The validator `StringInSet(set)` applied to the value `i` of the field
`k`: the warnings and the texts of the errors it returns.  The error text is
what `fmt.Errorf` prints for a `[]string` under `%v` and for a string under
`%d`. -/
def StringInSet (set : List String) (i : Value) (k : String) : List String × List String :=
  match i with
  | .str v =>
      if stringInSetLoop v set then ([], [])
      else
        ([], ["expected " ++ k ++ " to be in the set [" ++ " ".intercalate set ++
          "], got %!d(string=" ++ v ++ ")"])
  | _ => ([], ["expected type of " ++ k ++ " to be string"])

/-- The validator `IntGTE(min)` applied to the value `i` of the field `k`: the
warnings and the texts of the errors it returns. -/
def IntGTE (min : Int) (i : Value) (k : String) : List String × List String :=
  match i with
  | .int v =>
      if v < min then
        ([], ["expected " ++ k ++ " to be in greater than or equal to " ++ toString min ++
          ", got " ++ toString v])
      else ([], [])
  | _ => ([], ["expected type of " ++ k ++ " to be int"])

/-- A value that is not a Go `int`. -/
def notAnInt : Value → Prop
  | .int _ => False
  | _ => True

/-- The subsequence of a sequence of values that the specification describes
for `castStringList`: the elements that are strings different from `""`, in
their original order. -/
def nonEmptyStringElements (xs : List Value) : List String :=
  xs.filterMap fun v =>
    match v with
    | .str t => if t = "" then none else some t
    | _ => none

/-- The default ordering with its first two criteria exchanged. -/
def swappedRanking : List String :=
  ["geo", "typo", "words", "filters", "proximity", "attribute", "exact", "custom"]

/-- The first three criteria of the default ordering. -/
def shortRanking : List String :=
  ["typo", "geo", "words"]

/-! ## More sample inputs -/

/-- Remote settings whose `RemoveStopWords` is the mixed sequence
`["en", 42, "fr"]` and whose `IgnorePlurals` is `[true, "de"]`. -/
def mixedSettings : Settings :=
  { zeroSettings with
    RemoveStopWords := .slice [.str "en", .float64 42, .str "fr"]
    IgnorePlurals := .slice [.bool true, .str "de"] }

/-- Remote settings whose `IgnorePlurals` is the empty sequence and whose
`RemoveStopWords` holds a number only. -/
def emptiedSettings : Settings :=
  { zeroSettings with
    IgnorePlurals := .slice []
    RemoveStopWords := .slice [.float64 42] }

/-- Remote settings whose `Distinct` is a string; the two other polymorphic
fields are booleans. -/
def stringDistinctSettings : Settings :=
  { zeroSettings with
    Distinct := .str "yes"
    IgnorePlurals := .bool true
    RemoveStopWords := .bool false }

/-- Remote settings whose `Distinct` is the number `1.0`. -/
def numericDistinctSettings : Settings :=
  { zeroSettings with Distinct := .float64 1 }

/-- Remote settings whose `Distinct` is the boolean `true`. -/
def booleanDistinctSettings : Settings :=
  { zeroSettings with Distinct := .bool true }

/-- Remote settings whose `Distinct` is the number `9223372036854775808.0`,
two to the power 63. -/
def hugeDistinctSettings : Settings :=
  { zeroSettings with Distinct := .float64 9223372036854775808 }

/-- A configuration whose lists hold empty strings and whose ranking, once
they are dropped, is the default ordering. -/
def paddedConfig : ResourceData :=
  { sampleConfig with
    ranking := ["typo", "", "geo", "words", "filters", "proximity", "attribute", "exact", "custom"]
    replicas := ["", "products_by_price"] }

/-! ## Lemmas on the codec -/

/-- The record `readResourceFromSettings` leaves behind, field by field. -/
theorem readResourceFromSettings_eq (d : ResourceData) (s : Settings) :
    readResourceFromSettings d s =
      { id := d.id
        name := d.name
        searchable_attributes := s.SearchableAttributes.getD []
        attributes_for_faceting := s.AttributesForFaceting.getD []
        unretrievable_attributes := s.UnretrievableAttributes.getD []
        attribute_for_distinct := s.AttributeForDistinct
        attributes_to_retrieve := s.AttributesToRetrieve.getD []
        custom_ranking := s.CustomRanking.getD []
        ranking :=
          (if deepEqual s.Ranking (some rankingDefault) then some [] else s.Ranking).getD []
        replicas := s.Replicas.getD []
        max_values_per_facet := s.MaxValuesPerFacet
        sort_facet_values_by := d.sort_facet_values_by
        attributes_to_highlight := s.AttributesToHighlight.getD []
        attributes_to_snippet := s.AttributesToSnippet.getD []
        highlight_pre_tag := s.HighlightPreTag
        highlight_post_tag := s.HighlightPostTag
        optional_words := s.OptionalWords.getD []
        snippet_ellipsis_text := s.SnippetEllipsisText
        restrict_highlight_and_snippet_arrays := s.RestrictHighlightAndSnippetArrays
        advanced_syntax := s.AdvancedSyntax
        hits_per_page := s.HitsPerPage
        pagination_limited_to := s.PaginationLimitedTo
        min_proximity := s.MinProximity
        min_word_size_for_1_typo := s.MinWordSizefor1Typo
        min_word_size_for_2_typos := s.MinWordSizefor2Typos
        max_facet_hits := s.MaxFacetHits
        typo_tolerance := s.TypoTolerance
        allow_typos_on_numeric_tokens := s.AllowTyposOnNumericTokens
        replace_synonyms_in_highlight := s.ReplaceSynonymsInHighlight
        allow_compression_of_integer_array := s.AllowCompressionOfIntegerArray
        query_type := s.QueryType
        disable_typo_tolerance_on_attributes := s.DisableTypoToleranceOnAttributes.getD []
        response_fields := s.ResponseFields.getD []
        disable_typo_tolerance_on_words := s.DisableTypoToleranceOnWords.getD []
        separators_to_index := s.SeparatorsToIndex
        remove_words_if_no_results := s.RemoveWordsIfNoResults } := by
  cases d
  rfl

/-- On a list of strings none of which is empty, the loop of `castStringList`
keeps every element. -/
theorem castStringListLoop_boxed (xs : List String) (h : nonEmptyStrings xs) :
    castStringListLoop (boxed xs) = xs := by
  induction xs with
  | nil => rfl
  | cons x rest ih =>
      have hx : x ≠ "" := h x (List.mem_cons_self x rest)
      have hrest : nonEmptyStrings rest := fun y hy => h y (List.mem_cons_of_mem x hy)
      have ih2 : castStringListLoop (boxed rest) = rest := ih hrest
      simp only [boxed] at ih2
      simp [boxed, castStringListLoop, hx, ih2]

/-- On a list of strings none of which is empty, `castStringList` returns the
list itself, as a non-nil slice. -/
theorem castStringList_boxed (xs : List String) (h : nonEmptyStrings xs) :
    castStringList (boxed xs) = some xs := by
  simp [castStringList, castStringListLoop_boxed xs h]

/-- The payload of a built settings object is the map literal alone: none of
the three switches of `settingsAsMap` stores a key. -/
theorem settingsAsMap_build (d : ResourceData) :
    settingsAsMap (buildSettingsFromResourceData d) =
      settingsLiteral (buildSettingsFromResourceData d) :=
  rfl

/-- The text the provider compares with is the quoted body and a line end. -/
theorem notFoundText_eq : notFoundText = notFoundBody ++ "\n" := by
  decide

/-- The one call `resourceIndexCreate` issues. -/
theorem resourceIndexCreate_calls (d : ResourceData) (client : Client) :
    (resourceIndexCreate d client).calls =
      [Call.setSettings d.name (settingsAsMap (buildSettingsFromResourceData d))] := by
  cases h : client.SetSettings d.name (settingsAsMap (buildSettingsFromResourceData d)) <;>
    simp [resourceIndexCreate, h]

/-- The one call `resourceIndexUpdate` issues. -/
theorem resourceIndexUpdate_calls (d : ResourceData) (client : Client) :
    (resourceIndexUpdate d client).calls =
      [Call.setSettings d.id (settingsAsMap (buildSettingsFromResourceData d))] := by
  cases h : client.SetSettings d.id (settingsAsMap (buildSettingsFromResourceData d)) <;>
    simp [resourceIndexUpdate, h]

/-- The function `resourceIndexRead` has no path that returns an error. -/
theorem resourceIndexRead_err (d : ResourceData) (client : Client) :
    (resourceIndexRead d client).err = none := by
  by_cases h : (client.GetSettings d.id).2 ≠ none ∧ (client.GetSettings d.id).2 = some notFoundText
  · simp only [resourceIndexRead, if_pos h]
  · simp only [resourceIndexRead, if_neg h]

/-- Reading back into a record what was built from it gives the record again,
when its ranking is not the default ordering and no list field holds the empty
string. -/
theorem read_build_self (c : ResourceData) (hr : c.ranking ≠ rankingDefault)
    (hc : cleanLists c) :
    readResourceFromSettings c (buildSettingsFromResourceData c) = c := by
  rw [readResourceFromSettings_eq]
  have h1 := castStringList_boxed c.searchable_attributes (hc _ (by simp [listFields]))
  have h2 := castStringList_boxed c.attributes_for_faceting (hc _ (by simp [listFields]))
  have h3 := castStringList_boxed c.unretrievable_attributes (hc _ (by simp [listFields]))
  have h4 := castStringList_boxed c.attributes_to_retrieve (hc _ (by simp [listFields]))
  have h5 := castStringList_boxed c.custom_ranking (hc _ (by simp [listFields]))
  have h6 := castStringList_boxed c.ranking (hc _ (by simp [listFields]))
  have h7 := castStringList_boxed c.replicas (hc _ (by simp [listFields]))
  have h8 := castStringList_boxed c.attributes_to_highlight (hc _ (by simp [listFields]))
  have h9 := castStringList_boxed c.attributes_to_snippet (hc _ (by simp [listFields]))
  have h10 := castStringList_boxed c.optional_words (hc _ (by simp [listFields]))
  have h11 := castStringList_boxed c.disable_typo_tolerance_on_attributes
    (hc _ (by simp [listFields]))
  have h12 := castStringList_boxed c.response_fields (hc _ (by simp [listFields]))
  have h13 := castStringList_boxed c.disable_typo_tolerance_on_words
    (hc _ (by simp [listFields]))
  have hne : deepEqual (some c.ranking) (some rankingDefault) = false := by
    simp [deepEqual, hr]
  cases c
  simp only [buildSettingsFromResourceData] at *
  simp [h1, h2, h3, h4, h5, h6, h7, h8, h9, h10, h11, h12, h13, hne]

/-- Reading back, into any record `d`, what was built from a record `c` whose
ranking is not the default ordering and whose list fields hold no empty string:
every field the read writes is the field of `c`. -/
theorem read_build_onto (c d : ResourceData) (hr : c.ranking ≠ rankingDefault)
    (hc : cleanLists c) :
    readResourceFromSettings d (buildSettingsFromResourceData c) =
      { c with
        id := d.id
        name := d.name
        sort_facet_values_by := d.sort_facet_values_by } := by
  rw [readResourceFromSettings_eq]
  have h1 := castStringList_boxed c.searchable_attributes (hc _ (by simp [listFields]))
  have h2 := castStringList_boxed c.attributes_for_faceting (hc _ (by simp [listFields]))
  have h3 := castStringList_boxed c.unretrievable_attributes (hc _ (by simp [listFields]))
  have h4 := castStringList_boxed c.attributes_to_retrieve (hc _ (by simp [listFields]))
  have h5 := castStringList_boxed c.custom_ranking (hc _ (by simp [listFields]))
  have h6 := castStringList_boxed c.ranking (hc _ (by simp [listFields]))
  have h7 := castStringList_boxed c.replicas (hc _ (by simp [listFields]))
  have h8 := castStringList_boxed c.attributes_to_highlight (hc _ (by simp [listFields]))
  have h9 := castStringList_boxed c.attributes_to_snippet (hc _ (by simp [listFields]))
  have h10 := castStringList_boxed c.optional_words (hc _ (by simp [listFields]))
  have h11 := castStringList_boxed c.disable_typo_tolerance_on_attributes
    (hc _ (by simp [listFields]))
  have h12 := castStringList_boxed c.response_fields (hc _ (by simp [listFields]))
  have h13 := castStringList_boxed c.disable_typo_tolerance_on_words
    (hc _ (by simp [listFields]))
  have hne : deepEqual (some c.ranking) (some rankingDefault) = false := by
    simp [deepEqual, hr]
  cases c
  simp only [buildSettingsFromResourceData] at *
  simp [h1, h2, h3, h4, h5, h6, h7, h8, h9, h10, h11, h12, h13, hne]

/-! ## The settings codec: claims C1 to C5 -/

/-- C1 (defect): the payload of Create and Update is not a full replacement.
For the configuration `tunedConfig` the built settings object carries the
configured `pagination_limited_to`, `sort_facet_values_by` and
`restrict_highlight_and_snippet_arrays`, and the payload map has no key for
any of the three. -/
theorem payload_omits_configured_fields :
    (buildSettingsFromResourceData tunedConfig).PaginationLimitedTo = 500 ∧
    (buildSettingsFromResourceData tunedConfig).SortFacetValuesBy = "alpha" ∧
    (buildSettingsFromResourceData tunedConfig).RestrictHighlightAndSnippetArrays = true ∧
    (settingsAsMap (buildSettingsFromResourceData tunedConfig)).find "paginationLimitedTo" = none ∧
    (settingsAsMap (buildSettingsFromResourceData tunedConfig)).find "sortFacetValuesBy" = none ∧
    (settingsAsMap (buildSettingsFromResourceData tunedConfig)).find
      "restrictHighlightAndSnippetArrays" = none ∧
    (settingsAsMap (buildSettingsFromResourceData tunedConfig)).keys.length = 34 :=
  ⟨rfl, rfl, rfl, rfl, rfl, rfl, rfl⟩

/-- C2 (defect): `readResourceFromSettings` does not copy every field.  Read
into `sampleConfig`, whose `sort_facet_values_by` is `count`, remote settings
with `SortFacetValuesBy = "alpha"` leave the local field at `count`: the key
the function writes, `sort_facets_values_by`, is not a key of the schema. -/
theorem read_keeps_sort_facet_values_by :
    alphaSettings.SortFacetValuesBy = "alpha" ∧
    sampleConfig.sort_facet_values_by = "count" ∧
    (readResourceFromSettings sampleConfig alphaSettings).sort_facet_values_by = "count" :=
  ⟨rfl, rfl, rfl⟩

/-- C3 (counterexample): the ranking of `blankReplicaConfig` is not the default
ordering, its `replicas` are `["products_by_price", ""]`, and reading back what
was built from it, into any record, gives the replicas `["products_by_price"]`;
read into the record itself, the result differs from it.  And `tunedConfig`,
whose lists are empty and whose `sort_facet_values_by` is `alpha`, read back
into `sampleConfig`, leaves `count` in that field. -/
theorem roundtrip_fails_on_blank_element :
    blankReplicaConfig.ranking ≠ rankingDefault ∧
    blankReplicaConfig.replicas = ["products_by_price", ""] ∧
    (∀ d : ResourceData,
      (readResourceFromSettings d (buildSettingsFromResourceData blankReplicaConfig)).replicas =
        ["products_by_price"]) ∧
    readResourceFromSettings blankReplicaConfig
      (buildSettingsFromResourceData blankReplicaConfig) ≠ blankReplicaConfig ∧
    tunedConfig.ranking ≠ rankingDefault ∧
    tunedConfig.sort_facet_values_by = "alpha" ∧
    (readResourceFromSettings sampleConfig
      (buildSettingsFromResourceData tunedConfig)).sort_facet_values_by = "count" := by
  have hread : ∀ d : ResourceData,
      (readResourceFromSettings d (buildSettingsFromResourceData blankReplicaConfig)).replicas =
        ["products_by_price"] := by
    intro d
    rw [readResourceFromSettings_eq]
    rfl
  refine ⟨by decide, rfl, hread, ?_, by decide, rfl, rfl⟩
  intro h
  have h2 := hread blankReplicaConfig
  rw [h] at h2
  exact absurd h2 (by decide)

/-- C3 (amended): for every configuration record `c` whose ranking is not the
default ordering and none of whose list fields holds the empty string, and for
every record `d` the read writes into: apart from the field
`sort_facet_values_by`, the record read back from what was built from `c` is
`c` with the id and the name of `d`; and read back into `c` itself, it is `c`
again on every field. -/
theorem roundtrip_of_clean_lists (c d : ResourceData) (hr : c.ranking ≠ rankingDefault)
    (hc : cleanLists c) :
    { readResourceFromSettings d (buildSettingsFromResourceData c) with
        sort_facet_values_by := c.sort_facet_values_by } =
      { c with id := d.id, name := d.name } ∧
    readResourceFromSettings c (buildSettingsFromResourceData c) = c := by
  constructor
  · rw [read_build_onto c d hr hc]
  · exact read_build_self c hr hc

/-- C3 (witness): `listedConfig` has a ranking other than the default ordering
and no empty string in a list field; read back into `renamedResource`, which
differs from it in its id, name and lists, every list of `listedConfig` is
there again, and read back into itself it survives the round trip. -/
theorem roundtrip_of_clean_lists_witness :
    listedConfig.ranking ≠ rankingDefault ∧ cleanLists listedConfig ∧
    ({ readResourceFromSettings renamedResource (buildSettingsFromResourceData listedConfig) with
        sort_facet_values_by := listedConfig.sort_facet_values_by } =
      { listedConfig with id := "products_v1", name := "products_v2" } ∧
    readResourceFromSettings listedConfig (buildSettingsFromResourceData listedConfig) =
      listedConfig) :=
  have hr : listedConfig.ranking ≠ rankingDefault := by decide
  have hc : cleanLists listedConfig := by
    show ∀ xs ∈ listFields listedConfig, ∀ x ∈ xs, x ≠ ""
    decide
  ⟨hr, hc, roundtrip_of_clean_lists listedConfig renamedResource hr hc⟩

/-- C4: when the configured ranking is the default ordering, the built settings
object carries the empty, non-nil ranking, and so does the key `ranking` of the
payload map. -/
theorem build_normalises_default_ranking (c : ResourceData) (h : c.ranking = rankingDefault) :
    (buildSettingsFromResourceData c).Ranking = some [] ∧
    (settingsAsMap (buildSettingsFromResourceData c)).find "ranking" =
      some (Value.strs (some [])) := by
  have hr : (buildSettingsFromResourceData c).Ranking = some [] := by
    simp [buildSettingsFromResourceData, h, castStringList, boxed, rankingDefault,
      castStringListLoop, deepEqual]
  refine ⟨hr, ?_⟩
  rw [settingsAsMap_build]
  simp [settingsLiteral, Map.find, List.lookup, hr]

/-- C4 (witness): the configuration that spells out the default ranking. -/
theorem build_normalises_default_ranking_witness :
    (buildSettingsFromResourceData defaultRankingConfig).Ranking = some [] ∧
    (settingsAsMap (buildSettingsFromResourceData defaultRankingConfig)).find "ranking" =
      some (Value.strs (some [])) :=
  build_normalises_default_ranking defaultRankingConfig rfl

/-- C5: when the remote ranking is the default ordering, the local field
`ranking` is the empty list after `readResourceFromSettings`, whatever the
local record and the other remote fields are. -/
theorem read_normalises_default_ranking (d : ResourceData) (s : Settings)
    (h : s.Ranking = some rankingDefault) :
    (readResourceFromSettings d s).ranking = [] := by
  rw [readResourceFromSettings_eq]
  simp [h, deepEqual]

/-- C5 (witness): remote settings that report the default ordering, read into
a record whose ranking was a single criterion. -/
theorem read_normalises_default_ranking_witness :
    (readResourceFromSettings { sampleConfig with ranking := ["custom"] }
      defaultRankingSettings).ranking = [] :=
  read_normalises_default_ranking _ defaultRankingSettings rfl

/-! ## The lifecycle operations: claims C6 to C10 -/

/-- C6 (counterexample): the remote error is the quoted body, character for
character, and `resourceIndexRead` leaves the id `products` in place: the text
it compares with ends in a line end. -/
theorem read_keeps_id_on_bare_body :
    ((failingClient notFoundBody).GetSettings presentResource.id).2 = some notFoundBody ∧
    presentResource.id = "products" ∧
    (resourceIndexRead presentResource (failingClient notFoundBody)).data.id = "products" ∧
    (resourceIndexRead presentResource (failingClient notFoundBody)).data.id ≠ "" := by
  refine ⟨rfl, rfl, ?_, ?_⟩ <;> decide

/-- C6 (amended): whenever the remote get-settings call returns an error whose
text is the quoted body followed by a line end, `resourceIndexRead` sets the
id to the empty string and returns no error. -/
theorem read_clears_id_on_not_found (d : ResourceData) (client : Client)
    (h : (client.GetSettings d.id).2 = some notFoundText) :
    (resourceIndexRead d client).data.id = "" ∧ (resourceIndexRead d client).err = none := by
  simp [resourceIndexRead, h, ResourceData.SetId]

/-- C6 (witness): a remote service that answers with the not-found text. -/
theorem read_clears_id_on_not_found_witness :
    (resourceIndexRead presentResource (failingClient notFoundText)).data.id = "" ∧
    (resourceIndexRead presentResource (failingClient notFoundText)).err = none :=
  read_clears_id_on_not_found presentResource (failingClient notFoundText) rfl

/-- C7 (defect): a remote error other than not-found is not surfaced.  With a
remote service that answers `connection refused`, `resourceIndexRead` returns
no error, keeps the id, and overwrites the local `hits_per_page` (20 in the
record) with the 0 of the settings returned beside the error. -/
theorem read_swallows_remote_error :
    ((failingClient "connection refused").GetSettings presentResource.id).2 =
      some "connection refused" ∧
    (resourceIndexRead presentResource (failingClient "connection refused")).err = none ∧
    (resourceIndexRead presentResource (failingClient "connection refused")).data.id =
      "products" ∧
    presentResource.hits_per_page = 20 ∧
    (resourceIndexRead presentResource (failingClient "connection refused")).data.hits_per_page
      = 0 := by
  refine ⟨rfl, ?_, ?_, rfl, ?_⟩ <;> decide

/-- C8: `resourceIndexCreate` issues one replace-settings call, against the
configured name; when that call returns an error, the operation returns an
error and the id is unchanged; when it succeeds, the operation returns no
error and the id is the configured name. -/
theorem create_atomic_on_id (d : ResourceData) (client : Client) :
    (resourceIndexCreate d client).calls =
      [Call.setSettings d.name (settingsAsMap (buildSettingsFromResourceData d))] ∧
    (∀ e, client.SetSettings d.name (settingsAsMap (buildSettingsFromResourceData d)) = some e →
      (resourceIndexCreate d client).err ≠ none ∧ (resourceIndexCreate d client).data.id = d.id) ∧
    (client.SetSettings d.name (settingsAsMap (buildSettingsFromResourceData d)) = none →
      (resourceIndexCreate d client).err = none ∧
      (resourceIndexCreate d client).data.id = d.name) := by
  refine ⟨?_, ?_, ?_⟩
  · exact resourceIndexCreate_calls d client
  · intro e h
    simp [resourceIndexCreate, h]
  · intro h
    simp [resourceIndexCreate, h, ResourceData.SetId]

/-- C8 (witness): a refused and an accepted creation of `sampleConfig`. -/
theorem create_atomic_on_id_witness :
    ((resourceIndexCreate sampleConfig (failingClient "quota exceeded")).err ≠ none ∧
      (resourceIndexCreate sampleConfig (failingClient "quota exceeded")).data.id = "") ∧
    ((resourceIndexCreate sampleConfig (acceptingClient zeroSettings)).err = none ∧
      (resourceIndexCreate sampleConfig (acceptingClient zeroSettings)).data.id = "products") :=
  ⟨(create_atomic_on_id sampleConfig (failingClient "quota exceeded")).2.1 "quota exceeded" rfl,
    (create_atomic_on_id sampleConfig (acceptingClient zeroSettings)).2.2 rfl⟩

/-- C9 (defect): `resourceIndexDelete` names the index by the configured name,
not by the id.  For the resource with id `products_v1` and configured name
`products_v2` the delete call goes to `products_v2`, whatever the remote
service answers, and the operation returns the error of that call, while the
update call goes to `products_v1`. -/
theorem delete_targets_configured_name :
    renamedResource.id = "products_v1" ∧
    renamedResource.name = "products_v2" ∧
    (∀ client : Client,
      (resourceIndexDelete renamedResource client).calls = [Call.delete "products_v2"] ∧
      (resourceIndexDelete renamedResource client).err = client.Delete "products_v2") ∧
    (∀ client : Client, ∃ payload,
      (resourceIndexUpdate renamedResource client).calls =
        [Call.setSettings "products_v1" payload]) := by
  refine ⟨rfl, rfl, fun _ => ⟨rfl, rfl⟩, fun client => ?_⟩
  refine ⟨settingsAsMap (buildSettingsFromResourceData renamedResource), ?_⟩
  exact resourceIndexUpdate_calls renamedResource client

/-- C10: `resourceIndexUpdate` issues one replace-settings call, against the
index named by the id, with the payload `resourceIndexCreate` sends for the
same configuration, and the id after the call is the id before it, whatever
the remote service answers. -/
theorem update_keeps_id (d : ResourceData) (client other : Client) :
    (resourceIndexUpdate d client).calls =
      [Call.setSettings d.id (settingsAsMap (buildSettingsFromResourceData d))] ∧
    (resourceIndexCreate d other).calls =
      [Call.setSettings d.name (settingsAsMap (buildSettingsFromResourceData d))] ∧
    (resourceIndexUpdate d client).data.id = d.id := by
  refine ⟨?_, ?_, ?_⟩
  · exact resourceIndexUpdate_calls d client
  · exact resourceIndexCreate_calls d other
  · cases h : client.SetSettings d.id (settingsAsMap (buildSettingsFromResourceData d)) <;>
      simp [resourceIndexUpdate, h]

/-! ## Lemmas on the payload map -/

/-- A key that was just stored is found with the stored value. -/
theorem Map.find_store_self (m : Map) (key : String) (v : Value) :
    (m.store key v).find key = some v := by
  simp [Map.find, Map.store, List.lookup]

/-- Filtering a key out of a map does not change what another key finds. -/
theorem Map.lookup_filter_ne (m : List (String × Value)) (key other : String)
    (h : key ≠ other) :
    List.lookup key (List.filter (fun e => e.1 != other) m) = List.lookup key m := by
  induction m with
  | nil => rfl
  | cons e rest ih =>
      obtain ⟨k, v⟩ := e
      by_cases hk : k = other
      · subst hk
        have hne : (key == k) = false := by simpa using h
        simp [List.filter, List.lookup, hne, ih]
      · have hk2 : (k != other) = true := by simpa using hk
        simp only [List.filter, hk2, List.lookup, ih]

/-- Storing under one key does not change what another key finds. -/
theorem Map.find_store_of_ne (m : Map) (key other : String) (v : Value) (h : key ≠ other) :
    (m.store other v).find key = m.find key := by
  have hne : (key == other) = false := by simpa using h
  simp only [Map.find, Map.store, List.lookup, hne]
  exact Map.lookup_filter_ne m key other h

/-- The switch on `Distinct` touches no key but `distinct`. -/
theorem find_distinctSwitch_of_ne (v : Value) (m : Map) (key : String) (h : key ≠ "distinct") :
    (distinctSwitch v m).find key = m.find key := by
  cases v <;> simp [distinctSwitch, Map.find_store_of_ne _ _ _ _ h]

/-- The loop of `settingsAsMap` collects the string elements and writes one
line for every other element. -/
theorem languagesLoop_eq (field : String) (xs : List Value) (acc : List String) :
    languagesLoop field xs acc =
      (acc ++ stringElements xs, List.replicate (nonStringCount xs) (sliceDiagnostic field)) := by
  induction xs generalizing acc with
  | nil => simp [languagesLoop, stringElements, nonStringCount]
  | cons x rest ih =>
      cases x <;>
        simp [languagesLoop, stringElements, nonStringCount, ih, sliceDiagnostic,
          List.replicate_succ]

/-- The switch on a language field touches no key but its own. -/
theorem find_languagesSwitch_of_ne (field : String) (v : Value) (m : Map) (key : String)
    (h : key ≠ field) :
    (languagesSwitch field v m).1.find key = m.find key := by
  cases v <;> simp [languagesSwitch, Map.find_store_of_ne _ _ _ _ h]
  split <;> simp [Map.find_store_of_ne _ _ _ _ h]

/-- A sequence has a string element exactly when its string elements are not
the empty list. -/
theorem stringElements_ne_nil (xs : List Value) (h : ∃ t, Value.str t ∈ xs) :
    stringElements xs ≠ [] := by
  induction xs with
  | nil => simp at h
  | cons x rest ih =>
      cases x <;> simp [stringElements] at h ⊢ <;> exact ih h

/-- A sequence without a string element has no string elements. -/
theorem stringElements_eq_nil (xs : List Value) (h : ∀ t, Value.str t ∉ xs) :
    stringElements xs = [] := by
  induction xs with
  | nil => rfl
  | cons x rest ih =>
      have hrest : ∀ t, Value.str t ∉ rest := fun t ht => h t (List.mem_cons_of_mem x ht)
      cases x <;> simp [stringElements, ih hrest]
      exact h _ (List.mem_cons_self _ _)

/-- The map literal has no key `distinct`, `ignorePlurals` or
`removeStopWords`. -/
theorem settingsLiteral_polymorphic (s : Settings) :
    (settingsLiteral s).find "distinct" = none ∧
    (settingsLiteral s).find "ignorePlurals" = none ∧
    (settingsLiteral s).find "removeStopWords" = none :=
  ⟨rfl, rfl, rfl⟩

/-- What the switch on `Distinct` leaves under `distinct`, in a map that had
no such key. -/
theorem find_distinctSwitch_self (v : Value) (m : Map) (hm : m.find "distinct" = none) :
    (distinctSwitch v m).find "distinct" = distinctEntry v := by
  cases v <;> simp [distinctSwitch, distinctEntry, hm, Map.find_store_self]

/-- What the switch on a language field leaves under its key, in a map that
had no such key. -/
theorem find_languagesSwitch_self (field : String) (v : Value) (m : Map)
    (hm : m.find field = none) :
    (languagesSwitch field v m).1.find field = languagesEntry v := by
  cases v <;> simp [languagesSwitch, languagesEntry, hm, Map.find_store_self, languagesLoop_eq]
  split <;> simp [hm, Map.find_store_self]

/-- The lines the switch on a language field writes. -/
theorem languagesSwitch_log (field : String) (v : Value) (m : Map) :
    (languagesSwitch field v m).2 = languagesLog field v := by
  cases v <;> simp [languagesSwitch, languagesLog, languagesLoop_eq, wrongTypeDiagnostic]
  split <;> rfl

/-- The entry of every key of the map `settingsAsMap` returns. -/
theorem find_settingsAsMap (s : Settings) (key : String) :
    (settingsAsMap s).find key =
      if key = "removeStopWords" then languagesEntry s.RemoveStopWords
      else if key = "ignorePlurals" then languagesEntry s.IgnorePlurals
      else if key = "distinct" then distinctEntry s.Distinct
      else (settingsLiteral s).find key := by
  have hlit := settingsLiteral_polymorphic s
  have hd : (distinctSwitch s.Distinct (settingsLiteral s)).find "ignorePlurals" = none := by
    rw [find_distinctSwitch_of_ne _ _ _ (by decide)]; exact hlit.2.1
  have hd2 : (distinctSwitch s.Distinct (settingsLiteral s)).find "removeStopWords" = none := by
    rw [find_distinctSwitch_of_ne _ _ _ (by decide)]; exact hlit.2.2
  simp only [settingsAsMap, settingsAsMapLog]
  by_cases h1 : key = "removeStopWords"
  · subst h1
    rw [if_pos rfl]
    apply find_languagesSwitch_self
    rw [find_languagesSwitch_of_ne _ _ _ _ (by decide)]
    exact hd2
  · rw [if_neg h1, find_languagesSwitch_of_ne _ _ _ _ h1]
    by_cases h2 : key = "ignorePlurals"
    · subst h2
      rw [if_pos rfl]
      exact find_languagesSwitch_self _ _ _ hd
    · rw [if_neg h2, find_languagesSwitch_of_ne _ _ _ _ h2]
      by_cases h3 : key = "distinct"
      · subst h3
        rw [if_pos rfl]
        exact find_distinctSwitch_self _ _ hlit.1
      · rw [if_neg h3, find_distinctSwitch_of_ne _ _ _ h3]

/-- The lines `settingsAsMap` writes: those of `ignorePlurals`, then those of
`removeStopWords`; the switch on `Distinct` writes none. -/
theorem settingsAsMapLog_log (s : Settings) :
    (settingsAsMapLog s).2 =
      languagesLog "ignorePlurals" s.IgnorePlurals ++
        languagesLog "removeStopWords" s.RemoveStopWords := by
  simp only [settingsAsMapLog, languagesSwitch_log]

/-! ## The payload of Create and Update: claims C11 to C13 -/

/-- A field built by `castStringList` and stored in the map literal meets
`emittedSequence`. -/
theorem emittedSequence_of_cast (configured : List String) (built : Option (List String))
    (payload : Option Value) (hb : built = castStringList (boxed configured))
    (hp : payload = some (Value.strs built)) :
    emittedSequence configured built payload := by
  subst hb
  refine ⟨by simp [castStringList], hp, ?_⟩
  intro h
  subst h
  rfl

/-- The ranking `buildSettingsFromResourceData` emits is never the nil slice,
and it is empty when the configured ranking is. -/
theorem build_ranking_some (c : ResourceData) :
    (buildSettingsFromResourceData c).Ranking ≠ none ∧
    (c.ranking = [] → (buildSettingsFromResourceData c).Ranking = some []) := by
  constructor
  · simp only [buildSettingsFromResourceData, castStringList]
    split <;> simp
  · intro h
    simp only [buildSettingsFromResourceData, castStringList, h]
    split <;> rfl

/-- C11: for every configuration record, each of the thirteen sequence fields
of the built settings object is a non-nil slice, the payload map holds that
slice under the remote name of the field, and the slice is empty when the
field is unset (the empty list) in the configuration. -/
theorem sequences_never_null (c : ResourceData) :
    emittedSequence c.searchable_attributes
      (buildSettingsFromResourceData c).SearchableAttributes
      ((settingsAsMap (buildSettingsFromResourceData c)).find "searchableAttributes") ∧
    emittedSequence c.attributes_for_faceting
      (buildSettingsFromResourceData c).AttributesForFaceting
      ((settingsAsMap (buildSettingsFromResourceData c)).find "attributesForFaceting") ∧
    emittedSequence c.unretrievable_attributes
      (buildSettingsFromResourceData c).UnretrievableAttributes
      ((settingsAsMap (buildSettingsFromResourceData c)).find "unretrievableAttributes") ∧
    emittedSequence c.attributes_to_retrieve
      (buildSettingsFromResourceData c).AttributesToRetrieve
      ((settingsAsMap (buildSettingsFromResourceData c)).find "attributesToRetrieve") ∧
    emittedSequence c.custom_ranking
      (buildSettingsFromResourceData c).CustomRanking
      ((settingsAsMap (buildSettingsFromResourceData c)).find "customRanking") ∧
    emittedSequence c.ranking
      (buildSettingsFromResourceData c).Ranking
      ((settingsAsMap (buildSettingsFromResourceData c)).find "ranking") ∧
    emittedSequence c.replicas
      (buildSettingsFromResourceData c).Replicas
      ((settingsAsMap (buildSettingsFromResourceData c)).find "replicas") ∧
    emittedSequence c.attributes_to_highlight
      (buildSettingsFromResourceData c).AttributesToHighlight
      ((settingsAsMap (buildSettingsFromResourceData c)).find "attributesToHighlight") ∧
    emittedSequence c.attributes_to_snippet
      (buildSettingsFromResourceData c).AttributesToSnippet
      ((settingsAsMap (buildSettingsFromResourceData c)).find "attributesToSnippet") ∧
    emittedSequence c.optional_words
      (buildSettingsFromResourceData c).OptionalWords
      ((settingsAsMap (buildSettingsFromResourceData c)).find "optionalWords") ∧
    emittedSequence c.disable_typo_tolerance_on_attributes
      (buildSettingsFromResourceData c).DisableTypoToleranceOnAttributes
      ((settingsAsMap (buildSettingsFromResourceData c)).find
        "disableTypoToleranceOnAttributes") ∧
    emittedSequence c.response_fields
      (buildSettingsFromResourceData c).ResponseFields
      ((settingsAsMap (buildSettingsFromResourceData c)).find "responseFields") ∧
    emittedSequence c.disable_typo_tolerance_on_words
      (buildSettingsFromResourceData c).DisableTypoToleranceOnWords
      ((settingsAsMap (buildSettingsFromResourceData c)).find "disableTypoToleranceOnWords") := by
  have hr := build_ranking_some c
  refine ⟨emittedSequence_of_cast _ _ _ rfl rfl, emittedSequence_of_cast _ _ _ rfl rfl,
    emittedSequence_of_cast _ _ _ rfl rfl, emittedSequence_of_cast _ _ _ rfl rfl,
    emittedSequence_of_cast _ _ _ rfl rfl, ⟨hr.1, rfl, hr.2⟩,
    emittedSequence_of_cast _ _ _ rfl rfl, emittedSequence_of_cast _ _ _ rfl rfl,
    emittedSequence_of_cast _ _ _ rfl rfl, emittedSequence_of_cast _ _ _ rfl rfl,
    emittedSequence_of_cast _ _ _ rfl rfl, emittedSequence_of_cast _ _ _ rfl rfl,
    emittedSequence_of_cast _ _ _ rfl rfl⟩

/-- C12: for every configuration record, the payload map has no entry under
`distinct`, `ignorePlurals` or `removeStopWords`, and none of the three is
among its keys. -/
theorem polymorphic_fields_not_written (c : ResourceData) :
    (settingsAsMap (buildSettingsFromResourceData c)).find "distinct" = none ∧
    (settingsAsMap (buildSettingsFromResourceData c)).find "ignorePlurals" = none ∧
    (settingsAsMap (buildSettingsFromResourceData c)).find "removeStopWords" = none ∧
    "distinct" ∉ (settingsAsMap (buildSettingsFromResourceData c)).keys ∧
    "ignorePlurals" ∉ (settingsAsMap (buildSettingsFromResourceData c)).keys ∧
    "removeStopWords" ∉ (settingsAsMap (buildSettingsFromResourceData c)).keys := by
  refine ⟨rfl, rfl, rfl, ?_, ?_, ?_⟩ <;>
    · rw [settingsAsMap_build]
      simp [Map.keys, settingsLiteral]

/-- C13 (counterexample): the payload built from `sampleConfig` has an entry
under each of the three legacy names, holding the nil slice. -/
theorem legacy_keys_in_payload :
    (settingsAsMap (buildSettingsFromResourceData sampleConfig)).find "attributesToIndex" =
      some (Value.strs none) ∧
    (settingsAsMap (buildSettingsFromResourceData sampleConfig)).find
      "numericAttributesToIndex" = some (Value.strs none) ∧
    (settingsAsMap (buildSettingsFromResourceData sampleConfig)).find
      "numericAttributesForFiltering" = some (Value.strs none) ∧
    (settingsAsMap (buildSettingsFromResourceData sampleConfig)).find "attributesToIndex" ≠
      none :=
  ⟨rfl, rfl, rfl, by simp [settingsAsMap_build, settingsLiteral, Map.find, List.lookup]⟩

/-- C13 (amended): for every configuration record, the payload map has an entry
under each of `attributesToIndex`, `numericAttributesToIndex` and
`numericAttributesForFiltering`, and the entry is the nil slice: no configured
value is written under these names. -/
theorem legacy_keys_carry_nil (c : ResourceData) :
    (settingsAsMap (buildSettingsFromResourceData c)).find "attributesToIndex" =
      some (Value.strs none) ∧
    (settingsAsMap (buildSettingsFromResourceData c)).find "numericAttributesToIndex" =
      some (Value.strs none) ∧
    (settingsAsMap (buildSettingsFromResourceData c)).find "numericAttributesForFiltering" =
      some (Value.strs none) :=
  ⟨rfl, rfl, rfl⟩

/-! ## The polymorphic fields: claims C14 to C17 -/

/-- A key that finds nothing is not among the keys of the map. -/
theorem Map.not_mem_keys_of_find_none (m : Map) (key : String) (h : m.find key = none) :
    key ∉ m.keys := by
  intro hmem
  simp only [Map.keys, List.mem_map] at hmem
  obtain ⟨e, he, hk⟩ := hmem
  have h2 := List.lookup_eq_none_iff.mp h e he
  simp [hk] at h2

/-- The lines of `removeStopWords` never are the line of a non-string element
of `ignorePlurals`. -/
theorem count_slice_ignorePlurals (v : Value) :
    (languagesLog "removeStopWords" v).count (sliceDiagnostic "ignorePlurals") = 0 := by
  have hne : sliceDiagnostic "removeStopWords" ≠ sliceDiagnostic "ignorePlurals" := by decide
  cases v <;> simp only [languagesLog, wrongTypeDiagnostic, typeName] <;>
    first
    | decide
    | simp [List.count_replicate, hne]

/-- The lines of `ignorePlurals` never are the line of a non-string element of
`removeStopWords`. -/
theorem count_slice_removeStopWords (v : Value) :
    (languagesLog "ignorePlurals" v).count (sliceDiagnostic "removeStopWords") = 0 := by
  have hne : sliceDiagnostic "ignorePlurals" ≠ sliceDiagnostic "removeStopWords" := by decide
  cases v <;> simp only [languagesLog, wrongTypeDiagnostic, typeName] <;>
    first
    | decide
    | simp [List.count_replicate, hne]

/-- The line for a non-string element of a sequence is a diagnostic of its
field. -/
theorem isDiagnosticOf_sliceDiagnostic (field : String) :
    isDiagnosticOf field (sliceDiagnostic field) = true := by
  simp [isDiagnosticOf]

/-- Every line written for the non-string elements of a field is kept by the
filter of its diagnostics. -/
theorem filter_replicate_sliceDiagnostic (field : String) (n : Nat) :
    (List.replicate n (sliceDiagnostic field)).filter (isDiagnosticOf field) =
      List.replicate n (sliceDiagnostic field) := by
  apply List.filter_eq_self.mpr
  intro a ha
  rw [List.eq_of_mem_replicate ha]
  exact isDiagnosticOf_sliceDiagnostic field

/-- No line of `removeStopWords` is a diagnostic of `ignorePlurals`. -/
theorem filter_ignorePlurals_other (w : Value) :
    (languagesLog "removeStopWords" w).filter (isDiagnosticOf "ignorePlurals") = [] := by
  cases w <;> simp only [languagesLog, wrongTypeDiagnostic, typeName] <;>
    first
    | decide
    | (apply List.filter_eq_nil_iff.mpr
       intro a ha
       rw [List.eq_of_mem_replicate ha]
       decide)

/-- No line of `ignorePlurals` is a diagnostic of `removeStopWords`. -/
theorem filter_removeStopWords_other (w : Value) :
    (languagesLog "ignorePlurals" w).filter (isDiagnosticOf "removeStopWords") = [] := by
  cases w <;> simp only [languagesLog, wrongTypeDiagnostic, typeName] <;>
    first
    | decide
    | (apply List.filter_eq_nil_iff.mpr
       intro a ha
       rw [List.eq_of_mem_replicate ha]
       decide)

/-- C14: when `IgnorePlurals`, or `RemoveStopWords`, is a sequence that holds
at least one string, the entry of the field in the map `settingsAsMap` returns
is the subsequence of the string elements, in their order; the diagnostics of
the field in the lines written (the lines for its non-string elements and its
wrong-type lines alike) are one line for each element that is not a string,
and no other; and the lines written are those lines together with the lines
written when the field is a boolean, which writes none. -/
theorem mixed_sequence_is_filtered (s : Settings) (xs : List Value)
    (h : ∃ t, Value.str t ∈ xs) :
    (s.IgnorePlurals = Value.slice xs →
      (settingsAsMap s).find "ignorePlurals" = some (Value.strs (some (stringElements xs))) ∧
      (settingsAsMapLog s).2.filter (isDiagnosticOf "ignorePlurals") =
        List.replicate (nonStringCount xs) (sliceDiagnostic "ignorePlurals") ∧
      ((settingsAsMapLog s).2.filter (isDiagnosticOf "ignorePlurals")).length =
        nonStringCount xs ∧
      (settingsAsMapLog s).2.count (sliceDiagnostic "ignorePlurals") = nonStringCount xs ∧
      (settingsAsMapLog s).2 =
        List.replicate (nonStringCount xs) (sliceDiagnostic "ignorePlurals") ++
          (settingsAsMapLog { s with IgnorePlurals := Value.bool true }).2) ∧
    (s.RemoveStopWords = Value.slice xs →
      (settingsAsMap s).find "removeStopWords" = some (Value.strs (some (stringElements xs))) ∧
      (settingsAsMapLog s).2.filter (isDiagnosticOf "removeStopWords") =
        List.replicate (nonStringCount xs) (sliceDiagnostic "removeStopWords") ∧
      ((settingsAsMapLog s).2.filter (isDiagnosticOf "removeStopWords")).length =
        nonStringCount xs ∧
      (settingsAsMapLog s).2.count (sliceDiagnostic "removeStopWords") = nonStringCount xs ∧
      (settingsAsMapLog s).2 =
        (settingsAsMapLog { s with RemoveStopWords := Value.bool true }).2 ++
          List.replicate (nonStringCount xs) (sliceDiagnostic "removeStopWords")) := by
  have hpos : (stringElements xs).length > 0 :=
    List.length_pos.mpr (stringElements_ne_nil xs h)
  constructor
  · intro hs
    have hfilter : (settingsAsMapLog s).2.filter (isDiagnosticOf "ignorePlurals") =
        List.replicate (nonStringCount xs) (sliceDiagnostic "ignorePlurals") := by
      rw [settingsAsMapLog_log, List.filter_append, filter_ignorePlurals_other, hs]
      simp only [languagesLog, List.append_nil]
      exact filter_replicate_sliceDiagnostic _ _
    refine ⟨?_, hfilter, ?_, ?_, ?_⟩
    · rw [find_settingsAsMap]
      simp [hs, languagesEntry, hpos]
    · rw [hfilter, List.length_replicate]
    · rw [settingsAsMapLog_log, List.count_append, count_slice_ignorePlurals, hs]
      simp [languagesLog, List.count_replicate]
    · rw [settingsAsMapLog_log, settingsAsMapLog_log, hs]
      rfl
  · intro hs
    have hfilter : (settingsAsMapLog s).2.filter (isDiagnosticOf "removeStopWords") =
        List.replicate (nonStringCount xs) (sliceDiagnostic "removeStopWords") := by
      rw [settingsAsMapLog_log, List.filter_append, filter_removeStopWords_other, hs]
      simp only [languagesLog, List.nil_append]
      exact filter_replicate_sliceDiagnostic _ _
    refine ⟨?_, hfilter, ?_, ?_, ?_⟩
    · rw [find_settingsAsMap]
      simp [hs, languagesEntry, hpos]
    · rw [hfilter, List.length_replicate]
    · rw [settingsAsMapLog_log, List.count_append, count_slice_removeStopWords, hs]
      simp [languagesLog, List.count_replicate]
    · rw [settingsAsMapLog_log, settingsAsMapLog_log, hs]
      simp [languagesLog]

/-- C14 (witness): `["en", 42, "fr"]` under `RemoveStopWords` gives the entry
`["en", "fr"]` and exactly one diagnostic of the field, the line for the
dropped element; with `[true, "de"]` under `IgnorePlurals` the lines written
are that line and the one for `true`. -/
theorem mixed_sequence_is_filtered_witness :
    mixedSettings.RemoveStopWords =
      Value.slice [Value.str "en", Value.float64 42, Value.str "fr"] ∧
    ((settingsAsMap mixedSettings).find "removeStopWords" =
        some (Value.strs (some ["en", "fr"])) ∧
      (settingsAsMapLog mixedSettings).2.filter (isDiagnosticOf "removeStopWords") =
        [sliceDiagnostic "removeStopWords"] ∧
      ((settingsAsMapLog mixedSettings).2.filter (isDiagnosticOf "removeStopWords")).length
        = 1 ∧
      (settingsAsMapLog mixedSettings).2.count (sliceDiagnostic "removeStopWords") = 1 ∧
      (settingsAsMapLog mixedSettings).2 =
        [sliceDiagnostic "ignorePlurals"] ++ [sliceDiagnostic "removeStopWords"]) :=
  ⟨rfl,
    (mixed_sequence_is_filtered mixedSettings
      [Value.str "en", Value.float64 42, Value.str "fr"]
      ⟨"en", List.mem_cons_self _ _⟩).2 rfl⟩

/-- C15: when `IgnorePlurals`, or `RemoveStopWords`, is a sequence without a
string element, the map `settingsAsMap` returns has no entry under the key of
the field, and the key is not among the keys of the map. -/
theorem stringless_sequence_is_absent (s : Settings) (xs : List Value)
    (h : ∀ t, Value.str t ∉ xs) :
    (s.IgnorePlurals = Value.slice xs →
      (settingsAsMap s).find "ignorePlurals" = none ∧
      "ignorePlurals" ∉ (settingsAsMap s).keys) ∧
    (s.RemoveStopWords = Value.slice xs →
      (settingsAsMap s).find "removeStopWords" = none ∧
      "removeStopWords" ∉ (settingsAsMap s).keys) := by
  have hnil := stringElements_eq_nil xs h
  have h1 : s.IgnorePlurals = Value.slice xs → (settingsAsMap s).find "ignorePlurals" = none := by
    intro hs
    rw [find_settingsAsMap]
    simp [hs, languagesEntry, hnil]
  have h2 : s.RemoveStopWords = Value.slice xs →
      (settingsAsMap s).find "removeStopWords" = none := by
    intro hs
    rw [find_settingsAsMap]
    simp [hs, languagesEntry, hnil]
  exact ⟨fun hs => ⟨h1 hs, Map.not_mem_keys_of_find_none _ _ (h1 hs)⟩,
    fun hs => ⟨h2 hs, Map.not_mem_keys_of_find_none _ _ (h2 hs)⟩⟩

/-- C15 (witness): the empty sequence under `IgnorePlurals` and the sequence
`[42]` under `RemoveStopWords` leave no entry. -/
theorem stringless_sequence_is_absent_witness :
    emptiedSettings.IgnorePlurals = Value.slice [] ∧
    ((settingsAsMap emptiedSettings).find "ignorePlurals" = none ∧
      "ignorePlurals" ∉ (settingsAsMap emptiedSettings).keys) ∧
    emptiedSettings.RemoveStopWords = Value.slice [Value.float64 42] ∧
    ((settingsAsMap emptiedSettings).find "removeStopWords" = none ∧
      "removeStopWords" ∉ (settingsAsMap emptiedSettings).keys) :=
  ⟨rfl, (stringless_sequence_is_absent emptiedSettings [] (fun _ ht => by simp at ht)).1 rfl,
    rfl,
    (stringless_sequence_is_absent emptiedSettings [Value.float64 42]
      (fun _ ht => by simp at ht)).2 rfl⟩

/-- The lines of `removeStopWords` never are the wrong-type line of
`ignorePlurals`. -/
theorem count_wrongType_ignorePlurals (v w : Value) :
    (languagesLog "removeStopWords" w).count (wrongTypeDiagnostic "ignorePlurals" v) = 0 := by
  cases v <;> cases w <;> simp only [languagesLog, wrongTypeDiagnostic, typeName] <;>
    first
    | decide
    | (rw [List.count_replicate, if_neg (by decide)])

/-- The lines of `ignorePlurals` never are the wrong-type line of
`removeStopWords`. -/
theorem count_wrongType_removeStopWords (v w : Value) :
    (languagesLog "ignorePlurals" w).count (wrongTypeDiagnostic "removeStopWords" v) = 0 := by
  cases v <;> cases w <;> simp only [languagesLog, wrongTypeDiagnostic, typeName] <;>
    first
    | decide
    | (rw [List.count_replicate, if_neg (by decide)])

/-- A malformed language field writes its wrong-type line, once. -/
theorem languagesLog_malformed (field : String) (v : Value) (h : malformedLanguages v) :
    languagesLog field v = [wrongTypeDiagnostic field v] := by
  cases v <;> simp [malformedLanguages] at h <;> rfl

/-- A malformed language field leaves no entry. -/
theorem languagesEntry_malformed (v : Value) (h : malformedLanguages v) :
    languagesEntry v = none := by
  cases v <;> simp [malformedLanguages] at h <;> rfl

/-- A malformed `Distinct` leaves no entry. -/
theorem distinctEntry_malformed (v : Value) (h : malformedDistinct v) :
    distinctEntry v = none := by
  cases v <;> simp [malformedDistinct] at h <;> rfl

/-- C16 (defect): a `Distinct` of an unrecognised shape is dropped without a
diagnostic.  With the string `"yes"` under `Distinct` and booleans under the
two language fields, `settingsAsMap` writes no line at all and leaves the key
`distinct` out.  On the settings built from `sampleConfig`, where the three
polymorphic fields are the nil interface, it writes the wrong-type line of
`ignorePlurals` and that of `removeStopWords`, and none for `distinct`. -/
theorem malformed_distinct_is_silent :
    stringDistinctSettings.Distinct = Value.str "yes" ∧
    malformedDistinct stringDistinctSettings.Distinct ∧
    (settingsAsMapLog stringDistinctSettings).2 = [] ∧
    (settingsAsMap stringDistinctSettings).find "distinct" = none ∧
    (buildSettingsFromResourceData sampleConfig).Distinct = Value.nil ∧
    (settingsAsMapLog (buildSettingsFromResourceData sampleConfig)).2 =
      [wrongTypeDiagnostic "ignorePlurals" Value.nil,
        wrongTypeDiagnostic "removeStopWords" Value.nil] :=
  ⟨rfl, trivial, rfl, rfl, rfl, rfl⟩

/-- What holds of a malformed polymorphic field: when `IgnorePlurals`, or
`RemoveStopWords`, is neither a boolean nor a sequence, `settingsAsMap` writes the wrong-type line of the
field once and leaves its key out of the map; when `Distinct` is neither a
boolean nor a number, it leaves the key `distinct` out, and the lines written
do not depend on `Distinct`; and what any other key finds does not depend on
the value of the field. -/
theorem malformed_field_is_left_out (s : Settings) :
    (malformedLanguages s.IgnorePlurals →
      (settingsAsMapLog s).2.count (wrongTypeDiagnostic "ignorePlurals" s.IgnorePlurals) = 1 ∧
      (settingsAsMap s).find "ignorePlurals" = none) ∧
    (malformedLanguages s.RemoveStopWords →
      (settingsAsMapLog s).2.count
        (wrongTypeDiagnostic "removeStopWords" s.RemoveStopWords) = 1 ∧
      (settingsAsMap s).find "removeStopWords" = none) ∧
    (malformedDistinct s.Distinct →
      (settingsAsMap s).find "distinct" = none ∧
      ∀ v, (settingsAsMapLog { s with Distinct := v }).2 = (settingsAsMapLog s).2) ∧
    (∀ v key, key ≠ "ignorePlurals" →
      (settingsAsMap { s with IgnorePlurals := v }).find key = (settingsAsMap s).find key) ∧
    (∀ v key, key ≠ "removeStopWords" →
      (settingsAsMap { s with RemoveStopWords := v }).find key = (settingsAsMap s).find key) ∧
    (∀ v key, key ≠ "distinct" →
      (settingsAsMap { s with Distinct := v }).find key = (settingsAsMap s).find key) := by
  refine ⟨?_, ?_, ?_, ?_, ?_, ?_⟩
  · intro h
    constructor
    · rw [settingsAsMapLog_log, List.count_append, count_wrongType_ignorePlurals,
        languagesLog_malformed _ _ h]
      simp
    · rw [find_settingsAsMap]
      simp [languagesEntry_malformed _ h]
  · intro h
    constructor
    · rw [settingsAsMapLog_log, List.count_append, count_wrongType_removeStopWords,
        languagesLog_malformed _ _ h]
      simp
    · rw [find_settingsAsMap]
      simp [languagesEntry_malformed _ h]
  · intro h
    constructor
    · rw [find_settingsAsMap]
      simp [distinctEntry_malformed _ h]
    · intro v
      rw [settingsAsMapLog_log, settingsAsMapLog_log]
  · intro v key h
    have hl : settingsLiteral { s with IgnorePlurals := v } = settingsLiteral s := rfl
    rw [find_settingsAsMap, find_settingsAsMap, hl]
    simp [h]
  · intro v key h
    have hl : settingsLiteral { s with RemoveStopWords := v } = settingsLiteral s := rfl
    rw [find_settingsAsMap, find_settingsAsMap, hl]
    simp [h]
  · intro v key h
    have hl : settingsLiteral { s with Distinct := v } = settingsLiteral s := rfl
    rw [find_settingsAsMap, find_settingsAsMap, hl]
    simp [h]

/-- An instance on the zero settings, where the three polymorphic fields are the
nil interface: each language field writes its line once and no key is set. -/
theorem malformed_field_is_left_out_witness :
    (settingsAsMapLog zeroSettings).2.count (wrongTypeDiagnostic "ignorePlurals" Value.nil) = 1 ∧
    (settingsAsMap zeroSettings).find "ignorePlurals" = none ∧
    (settingsAsMapLog zeroSettings).2.count
      (wrongTypeDiagnostic "removeStopWords" Value.nil) = 1 ∧
    (settingsAsMap zeroSettings).find "removeStopWords" = none ∧
    (settingsAsMap zeroSettings).find "distinct" = none :=
  ⟨((malformed_field_is_left_out zeroSettings).1 trivial).1,
    ((malformed_field_is_left_out zeroSettings).1 trivial).2,
    ((malformed_field_is_left_out zeroSettings).2.1 trivial).1,
    ((malformed_field_is_left_out zeroSettings).2.1 trivial).2,
    ((malformed_field_is_left_out zeroSettings).2.2.1 trivial).1⟩

/-- The conversion `int(v)` of a number whose value is an integer that fits
`int` is that integer. -/
theorem floatToInt_intCast (n : Int) (h1 : minInt ≤ n) (h2 : n ≤ maxInt) :
    floatToInt (n : Rat) = n := by
  simp [floatToInt, h1, h2]

/-- C17 (counterexample): the number `9223372036854775808.0` under `Distinct`
has an integral value, two to the power 63, and the entry under `distinct` is
another integer, the least `int`. -/
theorem distinct_out_of_range :
    hugeDistinctSettings.Distinct = Value.float64 ((9223372036854775808 : Int) : Rat) ∧
    (settingsAsMap hugeDistinctSettings).find "distinct" =
      some (Value.int (-9223372036854775808)) ∧
    (settingsAsMap hugeDistinctSettings).find "distinct" ≠
      some (Value.int 9223372036854775808) := by
  have hd : hugeDistinctSettings.Distinct =
      Value.float64 ((9223372036854775808 : Int) : Rat) := by
    simp [hugeDistinctSettings]
  have hf : floatToInt ((9223372036854775808 : Int) : Rat) = -9223372036854775808 := by
    simp [floatToInt, minInt, maxInt]
  have hfind : (settingsAsMap hugeDistinctSettings).find "distinct" =
      some (Value.int (-9223372036854775808)) := by
    rw [find_settingsAsMap, hd]
    rw [if_neg (by decide), if_neg (by decide), if_pos rfl]
    simp only [distinctEntry, hf]
  refine ⟨hd, hfind, ?_⟩
  rw [hfind]
  simp

/-- C17 (amended): when `Distinct` is a number whose value is an integer `n`
that fits the type `int`, the entry under `distinct` is the integer `n`; when
`Distinct` is a boolean, the entry is that boolean. -/
theorem distinct_is_coerced (s : Settings) :
    (∀ n : Int, minInt ≤ n → n ≤ maxInt → s.Distinct = Value.float64 (n : Rat) →
      (settingsAsMap s).find "distinct" = some (Value.int n)) ∧
    (∀ b : Bool, s.Distinct = Value.bool b →
      (settingsAsMap s).find "distinct" = some (Value.bool b)) := by
  constructor
  · intro n h1 h2 hs
    rw [find_settingsAsMap, hs]
    simp [distinctEntry, floatToInt_intCast n h1 h2]
  · intro b hs
    rw [find_settingsAsMap, hs]
    simp [distinctEntry]

/-- C17 (witness): `1.0` gives the integer 1 and `true` gives `true`. -/
theorem distinct_is_coerced_witness :
    (settingsAsMap numericDistinctSettings).find "distinct" = some (Value.int 1) ∧
    (settingsAsMap booleanDistinctSettings).find "distinct" = some (Value.bool true) :=
  ⟨(distinct_is_coerced numericDistinctSettings).1 1 (by decide) (by decide)
      (by simp [numericDistinctSettings]),
    (distinct_is_coerced booleanDistinctSettings).2 true rfl⟩

/-! ## Apply and read cycles: claim C18 -/

/-- The loop of `castStringList` never returns an empty string. -/
theorem castStringListLoop_nonEmpty (xs : List Value) :
    nonEmptyStrings (castStringListLoop xs) := by
  induction xs with
  | nil => intro x hx; simp [castStringListLoop] at hx
  | cons v rest ih =>
      cases v <;> simp only [castStringListLoop] <;> try exact ih
      rename_i t
      by_cases ht : t = ""
      · simp only [ht, ne_eq, not_true_eq_false, if_false]
        exact ih
      · simp only [ne_eq, ht, not_false_eq_true, if_true]
        intro x hx
        rcases List.mem_cons.mp hx with h | h
        · rw [h]; exact ht
        · exact ih x h

/-- The ranking a read stores after a build is empty, or it is the configured
ranking without its empty strings and differs from the default ordering. -/
theorem read_build_ranking (d c : ResourceData) :
    (readResourceFromSettings d (buildSettingsFromResourceData c)).ranking = [] ∨
    ((readResourceFromSettings d (buildSettingsFromResourceData c)).ranking =
        castStringListLoop (boxed c.ranking) ∧
      castStringListLoop (boxed c.ranking) ≠ rankingDefault) := by
  rw [readResourceFromSettings_eq]
  simp only [buildSettingsFromResourceData, castStringList]
  by_cases h : castStringListLoop (boxed c.ranking) = rankingDefault
  · left
    have h1 : deepEqual (some (castStringListLoop (boxed c.ranking))) (some rankingDefault)
        = true := by simp [deepEqual, h]
    have h2 : deepEqual (some []) (some rankingDefault) = false := by decide
    simp [h1, h2]
  · right
    have h1 : deepEqual (some (castStringListLoop (boxed c.ranking))) (some rankingDefault)
        = false := by simp [deepEqual, h]
    simp [h1, h]

/-- The ranking a read stores after a build is never the default ordering. -/
theorem read_build_ranking_ne (d c : ResourceData) :
    (readResourceFromSettings d (buildSettingsFromResourceData c)).ranking ≠ rankingDefault := by
  rcases read_build_ranking d c with h | ⟨h, hne⟩
  · rw [h]; decide
  · rw [h]; exact hne

/-- The lists a read stores after a build hold no empty string. -/
theorem cleanLists_read_build (d c : ResourceData) :
    cleanLists (readResourceFromSettings d (buildSettingsFromResourceData c)) := by
  have hrank : nonEmptyStrings
      (readResourceFromSettings d (buildSettingsFromResourceData c)).ranking := by
    rcases read_build_ranking d c with h | ⟨h, _⟩
    · rw [h]; intro x hx; simp at hx
    · rw [h]; exact castStringListLoop_nonEmpty _
  rw [readResourceFromSettings_eq] at hrank ⊢
  intro xs hxs
  simp only [listFields, List.mem_cons, List.mem_singleton, List.not_mem_nil, or_false] at hxs
  rcases hxs with h | h | h | h | h | h | h | h | h | h | h | h | h <;> subst h <;>
    first
    | exact castStringListLoop_nonEmpty _
    | exact hrank

/-- C18: for every configuration record `c`, let `c1` be the record a read
leaves after a build from `c`, whatever record it writes into (in the lifecycle,
`c` itself); building from `c1` and reading back into `c1` gives `c1` again. -/
theorem apply_read_fixed_point (c d : ResourceData) :
    readResourceFromSettings (readResourceFromSettings d (buildSettingsFromResourceData c))
        (buildSettingsFromResourceData
          (readResourceFromSettings d (buildSettingsFromResourceData c))) =
      readResourceFromSettings d (buildSettingsFromResourceData c) :=
  read_build_self _ (read_build_ranking_ne d c) (cleanLists_read_build d c)

/-! ## The validators: claims C19 and C20 -/

/-- The loop of `StringInSet` finds `v` exactly when `v` is a member of the
set. -/
theorem stringInSetLoop_iff (v : String) (set : List String) :
    stringInSetLoop v set = true ↔ v ∈ set := by
  induction set with
  | nil => simp [stringInSetLoop]
  | cons valid rest ih =>
      by_cases h : valid = v
      · simp [stringInSetLoop, h]
      · have h2 : ¬ v = valid := fun e => h e.symm
        simp [stringInSetLoop, h, h2, ih]

/-- C19: applied to an integer `v`, `IntBetween(min, max)` returns no error
exactly when `min <= v <= max`, and one error otherwise; it never returns a
warning; `IntBetween(1, 1000)` accepts 1 and 1000 and rejects 0 and 1001. -/
theorem intBetween_exact (min max v : Int) (k : String) :
    ((IntBetween min max (Value.int v) k).2 = [] ↔ (min ≤ v ∧ v ≤ max)) ∧
    (¬ (min ≤ v ∧ v ≤ max) → (IntBetween min max (Value.int v) k).2.length = 1) ∧
    (IntBetween min max (Value.int v) k).1 = [] ∧
    (IntBetween 1 1000 (Value.int 1) k).2 = [] ∧
    (IntBetween 1 1000 (Value.int 1000) k).2 = [] ∧
    (IntBetween 1 1000 (Value.int 0) k).2.length = 1 ∧
    (IntBetween 1 1000 (Value.int 1001) k).2.length = 1 := by
  have hiff : (v < min ∨ v > max) ↔ ¬ (min ≤ v ∧ v ≤ max) := by omega
  refine ⟨?_, ?_, ?_, ?_, ?_, ?_, ?_⟩
  · by_cases h : v < min ∨ v > max
    · have h2 := hiff.mp h
      simp [IntBetween, h, h2]
    · have h2 : min ≤ v ∧ v ≤ max := by omega
      simp [IntBetween, h, h2]
  · intro hn
    have h := hiff.mpr hn
    simp [IntBetween, h]
  · by_cases h : v < min ∨ v > max <;> simp [IntBetween, h]
  · simp [IntBetween]
  · simp [IntBetween]
  · simp [IntBetween]
  · simp [IntBetween]

/-- C20: applied to a string `v`, `StringInSet(set)` returns no error exactly
when `v` equals a member of the set, and one error otherwise; with the set
`alpha`, `count` it accepts both members and rejects `Alpha`; with the empty
set it rejects every string. -/
theorem stringInSet_exact (set : List String) (v k : String) :
    ((StringInSet set (Value.str v) k).2 = [] ↔ v ∈ set) ∧
    (v ∉ set → (StringInSet set (Value.str v) k).2.length = 1) ∧
    (StringInSet ["alpha", "count"] (Value.str "alpha") k).2 = [] ∧
    (StringInSet ["alpha", "count"] (Value.str "count") k).2 = [] ∧
    (StringInSet ["alpha", "count"] (Value.str "Alpha") k).2.length = 1 ∧
    (StringInSet [] (Value.str v) k).2.length = 1 := by
  refine ⟨?_, ?_, ?_, ?_, ?_, ?_⟩
  · by_cases h : v ∈ set
    · have h2 := (stringInSetLoop_iff v set).mpr h
      simp [StringInSet, h, h2]
    · have h2 : stringInSetLoop v set = false := by
        cases hb : stringInSetLoop v set
        · rfl
        · exact absurd ((stringInSetLoop_iff v set).mp hb) h
      simp [StringInSet, h, h2]
  · intro h
    have h2 : stringInSetLoop v set = false := by
      cases hb : stringInSetLoop v set
      · rfl
      · exact absurd ((stringInSetLoop_iff v set).mp hb) h
    simp [StringInSet, h2]
  · simp [StringInSet, stringInSetLoop]
  · simp [StringInSet, stringInSetLoop]
  · simp [StringInSet, stringInSetLoop]
  · simp [StringInSet, stringInSetLoop]

/-- C18 (instance): `paddedConfig` is not a fixed point, the record read back
from it is: its ranking is empty and its replicas have lost the empty string. -/
theorem apply_read_fixed_point_witness :
    (readResourceFromSettings paddedConfig (buildSettingsFromResourceData paddedConfig)).ranking
      = [] ∧
    (readResourceFromSettings paddedConfig (buildSettingsFromResourceData paddedConfig)).replicas
      = ["products_by_price"] ∧
    readResourceFromSettings
        (readResourceFromSettings paddedConfig (buildSettingsFromResourceData paddedConfig))
        (buildSettingsFromResourceData
          (readResourceFromSettings paddedConfig
            (buildSettingsFromResourceData paddedConfig))) =
      readResourceFromSettings paddedConfig (buildSettingsFromResourceData paddedConfig) := by
  refine ⟨?_, ?_, apply_read_fixed_point paddedConfig paddedConfig⟩ <;>
    · rw [readResourceFromSettings_eq]
      rfl

/-! ## Claims C21 to C23 -/

/-- C21: applied to an integer `v`, `IntGTE(min)` returns no error exactly when
`v >= min`, and one error otherwise; applied to a value that is not an integer
it returns one error; it never returns a warning. -/
theorem intGTE_exact (min v : Int) (k : String) :
    ((IntGTE min (Value.int v) k).2 = [] ↔ v ≥ min) ∧
    (¬ v ≥ min → (IntGTE min (Value.int v) k).2.length = 1) ∧
    (∀ i : Value, notAnInt i → (IntGTE min i k).2.length = 1) ∧
    (∀ i : Value, (IntGTE min i k).1 = []) ∧
    (IntGTE 1 (Value.int 1) k).2 = [] ∧
    (IntGTE 1 (Value.int 0) k).2.length = 1 ∧
    (IntGTE 1 (Value.str "7") k).2.length = 1 := by
  refine ⟨?_, ?_, ?_, ?_, ?_, ?_, ?_⟩
  · by_cases h : v < min
    · have h2 : ¬ v ≥ min := by omega
      simp [IntGTE, h]
    · have h2 : v ≥ min := by omega
      simp [IntGTE, h, h2]
  · intro hn
    have h : v < min := by omega
    simp [IntGTE, h]
  · intro i hi
    cases i <;> simp [notAnInt] at hi <;> simp [IntGTE]
  · intro i
    cases i <;> simp [IntGTE]
    split <;> rfl
  · simp [IntGTE]
  · simp [IntGTE]
  · simp [IntGTE]

/-- A ranking other than the default ordering is not deep-equal to it. -/
theorem deepEqual_ranking_of_ne (r : List String) (h : r ≠ rankingDefault) :
    deepEqual (some r) (some rankingDefault) = false := by
  simp [deepEqual, h]

/-- C22: for every ranking made of non-empty strings, when it differs from the
default ordering `buildSettingsFromResourceData` emits it unchanged and
`readResourceFromSettings` stores it unchanged; when it is the default
ordering both replace it by the empty sequence. -/
theorem ranking_passes_through (r : List String) (hne : nonEmptyStrings r) :
    (r ≠ rankingDefault →
      (∀ c : ResourceData, c.ranking = r →
        (buildSettingsFromResourceData c).Ranking = some r) ∧
      (∀ (d : ResourceData) (s : Settings), s.Ranking = some r →
        (readResourceFromSettings d s).ranking = r)) ∧
    (r = rankingDefault →
      (∀ c : ResourceData, c.ranking = r →
        (buildSettingsFromResourceData c).Ranking = some []) ∧
      (∀ (d : ResourceData) (s : Settings), s.Ranking = some r →
        (readResourceFromSettings d s).ranking = [])) := by
  constructor
  · intro hd
    have hde := deepEqual_ranking_of_ne r hd
    constructor
    · intro c hc
      have hcast := castStringList_boxed r hne
      simp only [buildSettingsFromResourceData, hc, hcast, hde]
      rfl
    · intro d s hs
      rw [readResourceFromSettings_eq]
      simp [hs, hde]
  · intro hd
    subst hd
    have hde : deepEqual (some rankingDefault) (some rankingDefault) = true := by
      simp [deepEqual]
    constructor
    · intro c hc
      have hcast := castStringList_boxed rankingDefault hne
      simp only [buildSettingsFromResourceData, hc, hcast, hde]
      rfl
    · intro d s hs
      rw [readResourceFromSettings_eq]
      simp [hs, hde]

/-- C22 (witness): a permutation of the default ordering and a proper prefix of
it pass through the build and the read unchanged. -/
theorem ranking_passes_through_witness :
    List.Perm swappedRanking rankingDefault ∧
    List.IsPrefix shortRanking rankingDefault ∧
    (buildSettingsFromResourceData { sampleConfig with ranking := swappedRanking }).Ranking =
      some swappedRanking ∧
    (readResourceFromSettings sampleConfig
      { zeroSettings with Ranking := some swappedRanking }).ranking = swappedRanking ∧
    (buildSettingsFromResourceData { sampleConfig with ranking := shortRanking }).Ranking =
      some shortRanking ∧
    (readResourceFromSettings sampleConfig
      { zeroSettings with Ranking := some shortRanking }).ranking = shortRanking :=
  have h1 : nonEmptyStrings swappedRanking := by
    show ∀ x ∈ swappedRanking, x ≠ ""
    decide
  have h2 : nonEmptyStrings shortRanking := by
    show ∀ x ∈ shortRanking, x ≠ ""
    decide
  ⟨List.Perm.swap _ _ _, ⟨_, rfl⟩,
    ((ranking_passes_through swappedRanking h1).1 (by decide)).1 _ rfl,
    ((ranking_passes_through swappedRanking h1).1 (by decide)).2 _ _ rfl,
    ((ranking_passes_through shortRanking h2).1 (by decide)).1 _ rfl,
    ((ranking_passes_through shortRanking h2).1 (by decide)).2 _ _ rfl⟩

/-- The loop of `castStringList` computes the subsequence the specification
describes. -/
theorem castStringListLoop_eq (xs : List Value) :
    castStringListLoop xs = nonEmptyStringElements xs := by
  induction xs with
  | nil => rfl
  | cons v rest ih =>
      cases v <;> simp only [castStringListLoop, nonEmptyStringElements, List.filterMap_cons]
        <;> try exact ih
      rename_i t
      by_cases ht : t = ""
      · simp only [ht, ne_eq, not_true_eq_false, if_false, if_true]
        exact ih
      · simp only [ne_eq, ht, not_false_eq_true, if_true, if_false]
        exact congrArg (List.cons t) ih

/-- The strings `castStringList` keeps, boxed again, are a subsequence of the
input. -/
theorem castStringListLoop_sublist (xs : List Value) :
    List.Sublist ((castStringListLoop xs).map Value.str) xs := by
  induction xs with
  | nil => exact List.Sublist.slnil
  | cons v rest ih =>
      cases v <;> simp only [castStringListLoop] <;> try exact List.Sublist.cons _ ih
      rename_i t
      by_cases ht : t = ""
      · simp only [ht, ne_eq, not_true_eq_false, if_false]
        exact List.Sublist.cons _ ih
      · simp only [ne_eq, ht, not_false_eq_true, if_true, List.map_cons]
        exact List.Sublist.cons₂ _ ih

/-- The strings `castStringList` keeps are the non-empty strings of the input. -/
theorem mem_castStringListLoop (xs : List Value) (t : String) :
    t ∈ castStringListLoop xs ↔ (Value.str t ∈ xs ∧ t ≠ "") := by
  induction xs with
  | nil => simp [castStringListLoop]
  | cons v rest ih =>
      cases v <;> simp only [castStringListLoop] <;> try simpa using ih
      rename_i u
      by_cases hu : u = ""
      · subst hu
        simp only [ne_eq, not_true_eq_false, if_false, ih, List.mem_cons, Value.str.injEq]
        constructor
        · rintro ⟨h1, h2⟩
          exact ⟨Or.inr h1, h2⟩
        · rintro ⟨h1 | h1, h2⟩
          · exact absurd h1 h2
          · exact ⟨h1, h2⟩
      · simp only [ne_eq, hu, not_false_eq_true, if_true, List.mem_cons, ih, Value.str.injEq]
        constructor
        · rintro (h | ⟨h1, h2⟩)
          · exact ⟨Or.inl h, by rw [h]; exact hu⟩
          · exact ⟨Or.inr h1, h2⟩
        · rintro ⟨h1 | h1, h2⟩
          · exact Or.inl h1
          · exact Or.inr ⟨h1, h2⟩

/-- C23: for every sequence of values, `castStringList` returns a non-nil slice
that is the subsequence of the elements that are strings different from `""`,
in their original order: boxed again it is a subsequence of the input, a string
is in it exactly when it is a non-empty string of the input, it is never longer
than the input, and it is the input itself when every element of the input is a
non-empty string. -/
theorem castStringList_keeps_nonEmpty_strings (configured : List Value) :
    castStringList configured = some (nonEmptyStringElements configured) ∧
    castStringList configured ≠ none ∧
    List.Sublist ((nonEmptyStringElements configured).map Value.str) configured ∧
    (∀ t : String,
      t ∈ nonEmptyStringElements configured ↔ (Value.str t ∈ configured ∧ t ≠ "")) ∧
    (nonEmptyStringElements configured).length ≤ configured.length ∧
    (∀ l : List String, configured = boxed l → nonEmptyStrings l →
      castStringList configured = some l) := by
  have heq := castStringListLoop_eq configured
  refine ⟨?_, ?_, ?_, ?_, ?_, ?_⟩
  · simp [castStringList, heq]
  · simp [castStringList]
  · rw [← heq]
    exact castStringListLoop_sublist configured
  · intro t
    rw [← heq]
    exact mem_castStringListLoop configured t
  · have h := (castStringListLoop_sublist configured).length_le
    rw [← heq]
    simpa using h
  · intro l hl hne
    rw [hl]
    exact castStringList_boxed l hne

/-- C23 (instance): a sequence that mixes strings, an empty string, a number, a
boolean and the nil interface. -/
theorem castStringList_keeps_nonEmpty_strings_witness :
    castStringList
        [Value.str "title", Value.str "", Value.float64 3, Value.str "brand", Value.bool true,
          Value.nil, Value.str "title"] =
      some ["title", "brand", "title"] ∧
    castStringList [] = some [] ∧
    castStringList [Value.int 1, Value.str ""] = some [] := by
  refine ⟨?_, ?_, ?_⟩
  · exact (castStringList_keeps_nonEmpty_strings _).1.trans (by decide)
  · rfl
  · exact (castStringList_keeps_nonEmpty_strings _).1.trans (by decide)

end Algolia
